import Mathlib

/-!
MultiTenantHostContainer: the project service over its two ports

A shallow embedding of `internal/core/services/project_service.go` together with the
domain records (`internal/core/domain`) and the two ports (`internal/core/ports/ports.go`)
it is written against.

* Records are Lean structures with the Go field names.
* `uuid.UUID` and `time.Time` are opaque values of which only equality (and, for times,
  order) is used; both are natural numbers here, `0` being the Go zero value.
* A Go `error` is its message; `fmt.Errorf("...: %w", err)` prepends its text.
* The two ports are records of functions over an explicit state, so a theorem about the
  service holds for every repository and every container runtime.
* Every call the service makes on a port is appended to `World.trace`.
-/

namespace MultiTenantHost

/-! ## Domain records (`internal/core/domain`) -/

/-- Identifier `uuid.UUID`; `0` stands for `uuid.Nil`. -/
abbrev UUID := Nat

/-- Timestamp `time.Time`; `0` stands for the zero time. -/
abbrev Time := Nat

/-- Go `error`, represented by its message. -/
abbrev Error := String

deriving instance DecidableEq for Except

/-- Record `domain.EnvVar`. -/
structure EnvVar where
  ID : UUID
  ProjectID : UUID
  Key : String
  Value : String
  deriving DecidableEq, Repr

/-- Record `domain.Deployment`. -/
structure Deployment where
  ID : UUID
  ProjectID : UUID
  ContainerID : String
  Status : String
  DeployedAt : Time
  deriving DecidableEq, Repr

/-- Record `domain.Project`, with its preloaded relations. -/
structure Project where
  ID : UUID
  UserID : UUID
  Name : String
  Subdomain : String
  ImageName : String
  ContainerPort : Int
  Status : String
  CreatedAt : Time
  UpdatedAt : Time
  Deployments : List Deployment
  EnvVars : List EnvVar
  deriving DecidableEq, Repr

/-! ## Go maps with string keys -/

/-- Go `map[string]string` as an association list without repeated keys. -/
abbrev GoMap := List (String × String)

/-- Assignment `m[k] = v`: overwrite the entry of `k` if there is one, else add it. -/
def GoMap.insert : GoMap → String → String → GoMap
  | [], k, v => [(k, v)]
  | (k0, v0) :: rest, k, v =>
    if k0 = k then (k, v) :: rest else (k0, v0) :: GoMap.insert rest k v

/-- Read `m[k]`. -/
def GoMap.get (m : GoMap) (k : String) : Option String :=
  (m.find? (fun e => e.1 = k)).map Prod.snd

/-- The keys of a map. -/
def GoMap.keys (m : GoMap) : List String := m.map Prod.fst

/-- A map literal: its entries are assigned in order into the empty map. -/
def GoMap.literal (entries : List (String × String)) : GoMap :=
  entries.foldl (fun m e => GoMap.insert m e.1 e.2) []

/-! ## Ports (`internal/core/ports/ports.go`) -/

/-- Record `ports.ContainerConfig`. -/
structure ContainerConfig where
  Name : String
  Image : String
  Env : List String
  Labels : GoMap
  Port : Int
  deriving DecidableEq, Repr

/-- Record `ports.ContainerStatus`. -/
structure ContainerStatus where
  ID : String
  State : String
  Status : String
  deriving DecidableEq, Repr

/-- Interface `ports.ProjectRepository` over a store state `σ`. The two methods that take
a `*domain.Project` return the record as the store left it behind the pointer. Reads do
not change the store. -/
structure ProjectRepository (σ : Type) where
  Create : σ → Project → Option Error × Project × σ
  GetByID : σ → UUID → Except Error Project
  ListByUserID : σ → UUID → Except Error (List Project)
  Update : σ → Project → Option Error × Project × σ
  Delete : σ → UUID → Option Error × σ

/-- Interface `ports.ContainerRuntime` over an engine state `ρ`. -/
structure ContainerRuntime (ρ : Type) where
  CreateContainer : ρ → ContainerConfig → Except Error String × ρ
  StartContainer : ρ → String → Option Error × ρ
  StopContainer : ρ → String → Option Error × ρ
  RemoveContainer : ρ → String → Option Error × ρ
  InspectContainer : ρ → String → Except Error ContainerStatus × ρ

/-- One call made by the service on one of its two ports. -/
inductive Call where
  | RepoCreate (project : Project)
  | RepoGetByID (id : UUID)
  | RepoListByUserID (userID : UUID)
  | RepoUpdate (project : Project)
  | RepoDelete (id : UUID)
  | CreateContainer (config : ContainerConfig)
  | StartContainer (containerID : String)
  | StopContainer (containerID : String)
  | RemoveContainer (containerID : String)
  | InspectContainer (containerID : String)
  deriving DecidableEq, Repr

/-- Whether a call goes to the container runtime. -/
def Call.isRuntime : Call → Bool
  | .CreateContainer _ => true
  | .StartContainer _ => true
  | .StopContainer _ => true
  | .RemoveContainer _ => true
  | .InspectContainer _ => true
  | _ => false

/-- Whether a call is a write on the store. -/
def Call.isStoreWrite : Call → Bool
  | .RepoCreate _ => true
  | .RepoUpdate _ => true
  | .RepoDelete _ => true
  | _ => false

/-- What the service acts on: the store, the container engine, and the log of the calls
made so far, oldest first. -/
structure World (σ ρ : Type) where
  db : σ
  engine : ρ
  trace : List Call

/-- Append one call to the log. -/
def World.log {σ ρ : Type} (w : World σ ρ) (c : Call) : World σ ρ :=
  { w with trace := w.trace ++ [c] }

/-! ## `ProjectService` (`internal/core/services/project_service.go`) -/

/-- The label map built at the head of `DeployProject` (source lines 36-40). -/
def traefikLabels (project : Project) : GoMap :=
  GoMap.literal
    [ ("traefik.enable", "true"),
      ("traefik.http.routers." ++ project.Subdomain ++ ".rule",
        "Host(`" ++ project.Subdomain ++ ".localhost`)"),
      ("traefik.http.services." ++ project.Subdomain ++ ".loadbalancer.server.port",
        toString project.ContainerPort) ]

/-- Struct `ProjectService`: the two ports it was constructed with. -/
structure ProjectService (σ ρ : Type) where
  repo : ProjectRepository σ
  dockerRuntime : ContainerRuntime ρ

/-- Constructor `NewProjectService`. -/
def NewProjectService {σ ρ : Type} (repo : ProjectRepository σ) (docker : ContainerRuntime ρ) :
    ProjectService σ ρ :=
  { repo := repo, dockerRuntime := docker }

section calls
variable {σ ρ : Type}

/-- Call `s.repo.GetByID(ctx, id)`. -/
def repoGetByID (s : ProjectService σ ρ) (id : UUID) (w : World σ ρ) :
    Except Error Project × World σ ρ :=
  (s.repo.GetByID w.db id, w.log (.RepoGetByID id))

/-- Call `s.repo.ListByUserID(ctx, userID)`. -/
def repoListByUserID (s : ProjectService σ ρ) (userID : UUID) (w : World σ ρ) :
    Except Error (List Project) × World σ ρ :=
  (s.repo.ListByUserID w.db userID, w.log (.RepoListByUserID userID))

/-- Call `s.repo.Create(ctx, project)`: the error, the record behind the pointer, the world. -/
def repoCreate (s : ProjectService σ ρ) (project : Project) (w : World σ ρ) :
    Option Error × Project × World σ ρ :=
  let r := s.repo.Create w.db project
  (r.1, r.2.1, { (w.log (.RepoCreate project)) with db := r.2.2 })

/-- Call `s.repo.Update(ctx, project)`: the error, the record behind the pointer, the world. -/
def repoUpdate (s : ProjectService σ ρ) (project : Project) (w : World σ ρ) :
    Option Error × Project × World σ ρ :=
  let r := s.repo.Update w.db project
  (r.1, r.2.1, { (w.log (.RepoUpdate project)) with db := r.2.2 })

/-- Call `s.repo.Delete(ctx, id)`. -/
def repoDelete (s : ProjectService σ ρ) (id : UUID) (w : World σ ρ) :
    Option Error × World σ ρ :=
  let r := s.repo.Delete w.db id
  (r.1, { (w.log (.RepoDelete id)) with db := r.2 })

/-- Call `s.dockerRuntime.CreateContainer(ctx, config)`. -/
def dockerCreateContainer (s : ProjectService σ ρ) (config : ContainerConfig) (w : World σ ρ) :
    Except Error String × World σ ρ :=
  let r := s.dockerRuntime.CreateContainer w.engine config
  (r.1, { (w.log (.CreateContainer config)) with engine := r.2 })

/-- Call `s.dockerRuntime.StartContainer(ctx, containerID)`. -/
def dockerStartContainer (s : ProjectService σ ρ) (containerID : String) (w : World σ ρ) :
    Option Error × World σ ρ :=
  let r := s.dockerRuntime.StartContainer w.engine containerID
  (r.1, { (w.log (.StartContainer containerID)) with engine := r.2 })

/-- Call `s.dockerRuntime.StopContainer(ctx, containerID)`. -/
def dockerStopContainer (s : ProjectService σ ρ) (containerID : String) (w : World σ ρ) :
    Option Error × World σ ρ :=
  let r := s.dockerRuntime.StopContainer w.engine containerID
  (r.1, { (w.log (.StopContainer containerID)) with engine := r.2 })

/-- Call `s.dockerRuntime.RemoveContainer(ctx, containerID)`. -/
def dockerRemoveContainer (s : ProjectService σ ρ) (containerID : String) (w : World σ ρ) :
    Option Error × World σ ρ :=
  let r := s.dockerRuntime.RemoveContainer w.engine containerID
  (r.1, { (w.log (.RemoveContainer containerID)) with engine := r.2 })

end calls

/-- The `KEY=VALUE` list built by the loop of source lines 43-46. -/
def envList (project : Project) : List String :=
  project.EnvVars.foldl (fun envs env => envs ++ [env.Key ++ "=" ++ env.Value]) []

/-- The `ports.ContainerConfig` of source lines 48-54; `newUUID` is what `uuid.NewString()`
returned. -/
def deployConfig (project : Project) (newUUID : String) : ContainerConfig :=
  { Name := project.Subdomain ++ "-" ++ newUUID.take 8
    Image := project.ImageName
    Env := envList project
    Labels := traefikLabels project
    Port := project.ContainerPort }

section service
variable {σ ρ : Type}

/-- Method `ProjectService.DeployProject`; `newUUID` is what `uuid.NewString()` returns. -/
def DeployProject (s : ProjectService σ ρ) (newUUID : String) (projectID : UUID)
    (w : World σ ρ) : Except Error Deployment × World σ ρ :=
  match repoGetByID s projectID w with
  | (.error err, w1) => (.error ("project not found: " ++ err), w1)
  | (.ok project, w1) =>
    let config := deployConfig project newUUID
    match dockerCreateContainer s config w1 with
    | (.error err, w2) => (.error ("docker create failed: " ++ err), w2)
    | (.ok containerID, w2) =>
      match dockerStartContainer s containerID w2 with
      | (some err, w3) => (.error ("docker start failed: " ++ err), w3)
      | (none, w3) =>
        let deployment : Deployment :=
          { ID := 0, ProjectID := project.ID, ContainerID := containerID,
            Status := "running", DeployedAt := 0 }
        let project := { project with Status := "running" }
        let w4 := (repoUpdate s project w3).2.2
        (.ok deployment, w4)

/-- Library function `strings.Contains` on the characters of both strings. -/
def stringsContains : List Char → List Char → Bool
  | [], substr => substr.isEmpty
  | c :: cs, substr => substr.isPrefixOf (c :: cs) || stringsContains cs substr

/-- Method `ProjectService.CreateProject`. -/
def CreateProject (s : ProjectService σ ρ) (userID : UUID) (name image subdomain : String)
    (port : Int) (w : World σ ρ) : Except Error Project × World σ ρ :=
  if stringsContains subdomain.data " ".data then
    (.error "subdomain cannot contain spaces", w)
  else
    let project : Project :=
      { ID := 0, UserID := userID, Name := name, Subdomain := subdomain, ImageName := image,
        ContainerPort := port, Status := "created", CreatedAt := 0, UpdatedAt := 0,
        Deployments := [], EnvVars := [] }
    match repoCreate s project w with
    | (some err, _, w1) => (.error err, w1)
    | (none, project, w1) => (.ok project, w1)

/-- Method `ProjectService.ListProjects`. -/
def ListProjects (s : ProjectService σ ρ) (userID : UUID) (w : World σ ρ) :
    Except Error (List Project) × World σ ρ :=
  repoListByUserID s userID w

/-- Method `ProjectService.GetProject`. -/
def GetProject (s : ProjectService σ ρ) (projectID : UUID) (w : World σ ρ) :
    Except Error Project × World σ ρ :=
  repoGetByID s projectID w

/-- Method `ProjectService.UpdateProject`. -/
def UpdateProject (s : ProjectService σ ρ) (projectID : UUID) (name image subdomain : String)
    (port : Int) (w : World σ ρ) : Except Error Project × World σ ρ :=
  match repoGetByID s projectID w with
  | (.error err, w1) => (.error err, w1)
  | (.ok project, w1) =>
    let project :=
      { project with Name := name, ImageName := image, Subdomain := subdomain,
                     ContainerPort := port }
    match repoUpdate s project w1 with
    | (some err, _, w2) => (.error err, w2)
    | (none, project, w2) => (.ok project, w2)

/-- The `for _, d := range project.Deployments` loop of `DeleteProject` (source lines
148-154): both results are discarded. -/
def stopAndRemoveRunning (s : ProjectService σ ρ) : List Deployment → World σ ρ → World σ ρ
  | [], w => w
  | d :: ds, w =>
    if d.Status = "running" then
      let w1 := (dockerStopContainer s d.ContainerID w).2
      let w2 := (dockerRemoveContainer s d.ContainerID w1).2
      stopAndRemoveRunning s ds w2
    else
      stopAndRemoveRunning s ds w

/-- Method `ProjectService.DeleteProject`. -/
def DeleteProject (s : ProjectService σ ρ) (projectID : UUID) (w : World σ ρ) :
    Option Error × World σ ρ :=
  match repoGetByID s projectID w with
  | (.error err, w1) => (some err, w1)
  | (.ok project, w1) =>
    let w2 :=
      if project.Deployments.length > 0 then
        stopAndRemoveRunning s project.Deployments w1
      else
        w1
    repoDelete s projectID w2

/-- Method `ProjectService.StartProject`. -/
def StartProject (s : ProjectService σ ρ) (projectID : UUID) (w : World σ ρ) :
    Option Error × World σ ρ :=
  match repoGetByID s projectID w with
  | (.error err, w1) => (some err, w1)
  | (.ok project, w1) =>
    if h : project.Deployments.length = 0 then
      (some "no deployments found for this project", w1)
    else
      let latestDeployment :=
        project.Deployments.get ⟨project.Deployments.length - 1, by omega⟩
      dockerStartContainer s latestDeployment.ContainerID w1

/-- Method `ProjectService.StopProject`. -/
def StopProject (s : ProjectService σ ρ) (projectID : UUID) (w : World σ ρ) :
    Option Error × World σ ρ :=
  match repoGetByID s projectID w with
  | (.error err, w1) => (some err, w1)
  | (.ok project, w1) =>
    if h : project.Deployments.length = 0 then
      (some "no deployments found for this project", w1)
    else
      let latestDeployment :=
        project.Deployments.get ⟨project.Deployments.length - 1, by omega⟩
      dockerStopContainer s latestDeployment.ContainerID w1

end service

/-! ## A reference store and a scripted engine

`MemStore` is the `projects` table behind `GormProjectRepository` as the gorm tags of
`domain.Project` and `domain.User` declare it and `AutoMigrate` creates it: rows with a
primary key `ID` that the database fills in when it is left zero
(`default:gen_random_uuid()`), a unique index on `Subdomain`, columns `varchar(100)`,
`varchar(63)`, `varchar(255)` and `varchar(20)` for the name, the subdomain, the image and
the status, a foreign key from `UserID` to the `users` table, and foreign keys from the
deployments and the environment variables to their project. The relations of a row travel
with it (`Preload`). The `users` table is never written by the project service, so its
keys are a parameter of the store and no part of its state; so is the reading `now` of
the clock with which `Create` stamps a new row. -/

/-- The rows of the `projects` table, in insertion order. -/
abbrev MemStore := List Project

/-- A key no row carries, standing for `gen_random_uuid()`. -/
def MemStore.freshID (rows : MemStore) : UUID :=
  rows.foldl (fun m r => max m r.ID) 0 + 1

/-- Whether a string holds the character NUL, which no text column stores. -/
def hasNul (text : String) : Bool :=
  text.data.contains (Char.ofNat 0)

/-- What the column types of the `projects` table refuse in a row: a NUL character, or
more characters than the `varchar` of the column holds. -/
def MemStore.columnError (project : Project) : Option Error :=
  if hasNul project.Name || hasNul project.Subdomain || hasNul project.ImageName
      || hasNul project.Status then
    some "invalid byte sequence for encoding UTF8: 0x00"
  else if decide (100 < project.Name.length) || decide (63 < project.Subdomain.length)
      || decide (255 < project.ImageName.length) || decide (20 < project.Status.length) then
    some "value too long for type character varying"
  else
    none

/-- The row `Create` inserts for a record: a zero key is filled in by the database, and
zero `CreatedAt` and `UpdatedAt` are stamped with the clock. -/
def MemStore.stamped (now : Time) (rows : MemStore) (project : Project) : Project :=
  { project with
    ID := if project.ID = 0 then MemStore.freshID rows else project.ID
    CreatedAt := if project.CreatedAt = 0 then now else project.CreatedAt
    UpdatedAt := if project.UpdatedAt = 0 then now else project.UpdatedAt }

/-- `db.Create(project)` over the `users` table with keys `users`, at the time `now`:
refused on a value a column does not hold, on a duplicate subdomain or primary key, and
on an owner without a `users` row. -/
def MemStore.Create (users : List UUID) (now : Time) (rows : MemStore) (project : Project) :
    Option Error × Project × MemStore :=
  match MemStore.columnError project with
  | some err => (some err, project, rows)
  | none =>
    if rows.any (fun r => r.Subdomain = project.Subdomain) then
      (some "duplicate key value violates unique constraint", project, rows)
    else if decide (project.ID ≠ 0) && rows.any (fun r => r.ID = project.ID) then
      (some "duplicate key value violates unique constraint", project, rows)
    else if project.UserID ∉ users then
      (some "insert or update on table projects violates foreign key constraint", project,
        rows)
    else
      let project := MemStore.stamped now rows project
      (none, project, rows ++ [project])

/-- `db.Preload(...).First(&p, "id = ?", id)`. -/
def MemStore.GetByID (rows : MemStore) (id : UUID) : Except Error Project :=
  match rows.find? (fun r => r.ID = id) with
  | some p => .ok p
  | none => .error "record not found"

/-- `db.Where("user_id = ?", userID).Find(&projects)`: the relations are not preloaded. -/
def MemStore.ListByUserID (rows : MemStore) (userID : UUID) : Except Error (List Project) :=
  .ok ((rows.filter (fun r => r.UserID = userID)).map
    (fun r => { r with Deployments := [], EnvVars := [] }))

/-- `db.Save(project)`: all fields of the row with this key are written, the row is
inserted when there is none; refused on a value a column does not hold and when another
row owns the subdomain. -/
def MemStore.Update (rows : MemStore) (project : Project) : Option Error × Project × MemStore :=
  match MemStore.columnError project with
  | some err => (some err, project, rows)
  | none =>
    if rows.any (fun r => r.Subdomain = project.Subdomain ∧ r.ID ≠ project.ID) then
      (some "duplicate key value violates unique constraint", project, rows)
    else if rows.any (fun r => r.ID = project.ID) then
      (none, project, rows.map (fun r => if r.ID = project.ID then project else r))
    else
      (none, project, rows ++ [project])

/-- `db.Delete(&domain.Project{}, "id = ?", id)`: refused while a deployment or an
environment variable still references the project, as no foreign key cascades. -/
def MemStore.Delete (rows : MemStore) (id : UUID) : Option Error × MemStore :=
  if rows.any (fun r => r.ID = id ∧ (r.Deployments ≠ [] ∨ r.EnvVars ≠ [])) then
    (some "update or delete on table projects violates foreign key constraint", rows)
  else
    (none, rows.filter (fun r => r.ID ≠ id))

/-- The reference store over a `users` table with the keys `users`, at the time `now`,
as a `ProjectRepository`. -/
def memRepoOver (users : List UUID) (now : Time) : ProjectRepository MemStore :=
  { Create := MemStore.Create users now
    GetByID := MemStore.GetByID
    ListByUserID := MemStore.ListByUserID
    Update := MemStore.Update
    Delete := MemStore.Delete }

/-- The keys of the `users` table of the examples. -/
def refUsers : List UUID := [1, 2, 3]

/-- The clock of the examples, which reads the zero time: the rows they insert keep zero
stamps. -/
def refNow : Time := 0

/-- The reference store of the examples. -/
def memRepo : ProjectRepository MemStore :=
  memRepoOver refUsers refNow

/-- A container engine that answers every call from a fixed script. -/
structure Script where
  createResult : Except Error String
  startError : Option Error
  stopError : Option Error
  removeError : Option Error
  deriving DecidableEq, Repr

/-- The scripted engine as a `ContainerRuntime`. -/
def scriptedRuntime : ContainerRuntime Script :=
  { CreateContainer := fun e _ => (e.createResult, e)
    StartContainer := fun e _ => (e.startError, e)
    StopContainer := fun e _ => (e.stopError, e)
    RemoveContainer := fun e _ => (e.removeError, e)
    InspectContainer := fun e id => (.ok { ID := id, State := "running", Status := "running" }, e) }

/-- The service over the reference store and the scripted engine. -/
def refService : ProjectService MemStore Script :=
  NewProjectService memRepo scriptedRuntime

/-- An engine on which every call succeeds; creation answers `c1`. -/
def engineOk : Script :=
  { createResult := .ok "c1", startError := none, stopError := none, removeError := none }

/-- An engine on which creation answers `c1` and start fails. -/
def engineStartFails : Script :=
  { createResult := .ok "c1", startError := some "start refused", stopError := none,
    removeError := none }

/-- An engine on which creation fails. -/
def engineCreateFails : Script :=
  { createResult := .error "no such image", startError := none, stopError := none,
    removeError := some "unreachable" }

/-- A project `blog` on port 3000 with no deployment. -/
def blogProject : Project :=
  { ID := 7, UserID := 1, Name := "Blog", Subdomain := "blog", ImageName := "nginx:alpine",
    ContainerPort := 3000, Status := "created", CreatedAt := 0, UpdatedAt := 0,
    Deployments := [],
    EnvVars := [{ ID := 1, ProjectID := 7, Key := "MODE", Value := "prod" }] }

/-- A world holding `blogProject` alone, before any call. -/
def blogWorld (engine : Script) : World MemStore Script :=
  { db := [blogProject], engine := engine, trace := [] }

/-- The configurations handed to `CreateContainer` in a log, oldest first. -/
def createdConfigs (tr : List Call) : List ContainerConfig :=
  tr.filterMap (fun c => match c with
    | .CreateContainer config => some config
    | _ => none)

/-- A fixed answer of `uuid.NewString()`. -/
def sampleUUID : String := "6ba7b810-9dad-11d1-80b4-00c04fd430c8"

/-- The runtime calls the claim on `DeleteProject` asks for: stop then remove, for each
deployment whose status is `running`, in history order. -/
def teardownCalls (ds : List Deployment) : List Call :=
  (ds.filter (fun d => d.Status = "running")).flatMap
    (fun d => [Call.StopContainer d.ContainerID, Call.RemoveContainer d.ContainerID])

/-- A stopped project `shop` with three deployments, the first and the last `running`. -/
def shopProject : Project :=
  { ID := 9, UserID := 1, Name := "Shop", Subdomain := "shop", ImageName := "shop:1",
    ContainerPort := 8080, Status := "stopped", CreatedAt := 0, UpdatedAt := 0,
    Deployments :=
      [ { ID := 1, ProjectID := 9, ContainerID := "c1", Status := "running", DeployedAt := 1 },
        { ID := 2, ProjectID := 9, ContainerID := "c2", Status := "exited", DeployedAt := 2 },
        { ID := 3, ProjectID := 9, ContainerID := "c3", Status := "running", DeployedAt := 3 } ],
    EnvVars := [] }

/-- A world holding `blogProject` and `shopProject`, before any call. -/
def shopWorld (engine : Script) : World MemStore Script :=
  { db := [blogProject, shopProject], engine := engine, trace := [] }

/-- An engine on which stop and remove both fail. -/
def engineTeardownFails : Script :=
  { createResult := .ok "c1", startError := none, stopError := some "No such container",
    removeError := some "No such container" }

/-- A running project `live` whose one deployment is `running`. -/
def liveProject : Project :=
  { ID := 11, UserID := 2, Name := "Live", Subdomain := "live", ImageName := "live:1",
    ContainerPort := 80, Status := "running", CreatedAt := 0, UpdatedAt := 0,
    Deployments :=
      [ { ID := 4, ProjectID := 11, ContainerID := "c5", Status := "running", DeployedAt := 5 } ],
    EnvVars := [] }

/-- A world holding `blogProject` and `liveProject`, before any call. -/
def liveWorld (engine : Script) : World MemStore Script :=
  { db := [blogProject, liveProject], engine := engine, trace := [] }

/-- DNS-label syntax as the specification words it: not empty, at most 63 characters,
only ASCII letters, digits and hyphens, and no hyphen first or last. -/
def isDNSLabel (subdomain : String) : Bool :=
  decide (1 ≤ subdomain.data.length) && decide (subdomain.data.length ≤ 63)
    && subdomain.data.all (fun c => c.isAlphanum || c == '-')
    && subdomain.data.head? != some '-' && subdomain.data.getLast? != some '-'

/-- The record `CreateProject` hands to the store (source lines 88-95). -/
def newProject (userID : UUID) (name image subdomain : String) (port : Int) : Project :=
  { ID := 0, UserID := userID, Name := name, Subdomain := subdomain, ImageName := image,
    ContainerPort := port, Status := "created", CreatedAt := 0, UpdatedAt := 0,
    Deployments := [], EnvVars := [] }

/-- A label of 64 characters. -/
def longLabel : String := String.mk (List.replicate 64 'a')

/-- The reference store behind a connection that is lost on every `Update`. -/
def updateFailsRepo : ProjectRepository MemStore :=
  { Create := MemStore.Create refUsers refNow
    GetByID := MemStore.GetByID
    ListByUserID := MemStore.ListByUserID
    Update := fun rows project => (some "connection lost", project, rows)
    Delete := MemStore.Delete }

/-- The service over the store whose `Update` fails and the scripted engine. -/
def updateFailsService : ProjectService MemStore Script :=
  NewProjectService updateFailsRepo scriptedRuntime

/-- A project whose deployment list is not in creation order: the deployment of `c-new`
is the most recent one and comes first. -/
def mixedProject : Project :=
  { ID := 13, UserID := 3, Name := "Mixed", Subdomain := "mixed", ImageName := "mixed:1",
    ContainerPort := 80, Status := "running", CreatedAt := 0, UpdatedAt := 0,
    Deployments :=
      [ { ID := 6, ProjectID := 13, ContainerID := "c-new", Status := "running",
          DeployedAt := 9 },
        { ID := 5, ProjectID := 13, ContainerID := "c-old", Status := "exited",
          DeployedAt := 2 } ],
    EnvVars := [] }

/-- A world holding `mixedProject` alone, before any call. -/
def mixedWorld (engine : Script) : World MemStore Script :=
  { db := [mixedProject], engine := engine, trace := [] }

/-- A container engine that remembers the names of the containers it created: a create
under a name already in use is refused, any other create answers a new id; the other
calls succeed. -/
def namingRuntime : ContainerRuntime (List String) :=
  { CreateContainer := fun names config =>
      if config.Name ∈ names then
        (.error "Conflict. The container name is already in use", names)
      else
        (.ok ("c" ++ toString (names.length + 1)), names ++ [config.Name])
    StartContainer := fun names _ => (none, names)
    StopContainer := fun names _ => (none, names)
    RemoveContainer := fun names _ => (none, names)
    InspectContainer := fun names id =>
      (.ok { ID := id, State := "running", Status := "running" }, names) }

/-- The service over the reference store and the naming engine. -/
def namingService : ProjectService MemStore (List String) :=
  NewProjectService memRepo namingRuntime

/-- A world holding `blogProject` alone over an engine without containers. -/
def namingWorld : World MemStore (List String) :=
  { db := [blogProject], engine := [], trace := [] }

/-- A second answer of `uuid.NewString()`. -/
def otherUUID : String := "0f8fad5b-d9cb-469f-a165-70867728950e"

/-- A scripted engine that also keeps the calls it receives, oldest first. -/
structure Recorder where
  script : Script
  received : List Call
  deriving Repr

/-- The recording engine as a `ContainerRuntime`. -/
def recordingRuntime : ContainerRuntime Recorder :=
  { CreateContainer := fun e config =>
      (e.script.createResult, { e with received := e.received ++ [.CreateContainer config] })
    StartContainer := fun e id =>
      (e.script.startError, { e with received := e.received ++ [.StartContainer id] })
    StopContainer := fun e id =>
      (e.script.stopError, { e with received := e.received ++ [.StopContainer id] })
    RemoveContainer := fun e id =>
      (e.script.removeError, { e with received := e.received ++ [.RemoveContainer id] })
    InspectContainer := fun e id =>
      (.ok { ID := id, State := "running", Status := "running" },
       { e with received := e.received ++ [.InspectContainer id] }) }

/-- The service over the reference store and the recording engine. -/
def recordingService : ProjectService MemStore Recorder :=
  NewProjectService memRepo recordingRuntime

/-- A world over the rows `rows` and a recording engine that has received nothing. -/
def recordingWorld (rows : MemStore) (script : Script) : World MemStore Recorder :=
  { db := rows, engine := { script := script, received := [] }, trace := [] }

/-- The engine after the teardown the claim on `DeleteProject` asks for: for each
deployment with status `running`, in history order, the runtime's `StopContainer` and
then its `RemoveContainer`, each on the state the call before it left. -/
def teardownEngine {ρ : Type} (docker : ContainerRuntime ρ) (ds : List Deployment)
    (engine : ρ) : ρ :=
  (ds.filter (fun d => d.Status = "running")).foldl
    (fun e d =>
      (docker.RemoveContainer (docker.StopContainer e d.ContainerID).2 d.ContainerID).2)
    engine

/-- The engine after the runtime calls a deploy is to make: `CreateContainer` with the
configuration and, when that answers a container id, `StartContainer` of that id. -/
def engineAfterDeploy {ρ : Type} (docker : ContainerRuntime ρ) (engine : ρ)
    (config : ContainerConfig) : ρ :=
  match (docker.CreateContainer engine config).1 with
  | .error _ => (docker.CreateContainer engine config).2
  | .ok c => (docker.StartContainer (docker.CreateContainer engine config).2 c).2

/-- The base domain `AuthHandler.Me` reports to clients (`auth_handler.go`, lines 63-66):
the environment variable `BASE_DOMAIN`, or `localhost` when it is empty; `getenv` is
`os.Getenv`. -/
def reportedBaseDomain (getenv : String → String) : String :=
  let baseDomain := getenv "BASE_DOMAIN"
  if baseDomain = "" then "localhost" else baseDomain

/-- An environment in which `BASE_DOMAIN` is `example.com` and nothing else is set. -/
def exampleEnv (key : String) : String :=
  if key = "BASE_DOMAIN" then "example.com" else ""

/-- A third answer of `uuid.NewString()`, with the first 8 characters of `sampleUUID`. -/
def clashUUID : String := "6ba7b810-1c2d-4e3f-8a4b-5c6d7e8f9a0b"

/-! ## Lemmas on strings and label maps -/

theorem string_ne_of_data {a b : String} (h : a.data ≠ b.data) : a ≠ b :=
  fun e => h (congrArg String.data e)

theorem enable_ne_router (sub : String) :
    "traefik.enable" ≠ "traefik.http.routers." ++ sub ++ ".rule" := by
  apply string_ne_of_data
  simp [String.data_append]

theorem enable_ne_service (sub : String) :
    "traefik.enable" ≠ "traefik.http.services." ++ sub ++ ".loadbalancer.server.port" := by
  apply string_ne_of_data
  simp [String.data_append]

theorem router_ne_service (sub : String) :
    "traefik.http.routers." ++ sub ++ ".rule"
      ≠ "traefik.http.services." ++ sub ++ ".loadbalancer.server.port" := by
  apply string_ne_of_data
  simp [String.data_append]

/-- The label literal never collapses: its three keys differ for every subdomain. -/
theorem traefikLabels_eq (project : Project) :
    traefikLabels project =
      [ ("traefik.enable", "true"),
        ("traefik.http.routers." ++ project.Subdomain ++ ".rule",
          "Host(`" ++ project.Subdomain ++ ".localhost`)"),
        ("traefik.http.services." ++ project.Subdomain ++ ".loadbalancer.server.port",
          toString project.ContainerPort) ] := by
  simp [traefikLabels, GoMap.literal, GoMap.insert, enable_ne_router, enable_ne_service,
    router_ne_service]

/-! ## The four ways through `DeployProject` -/

section deploy
variable {σ ρ : Type}

theorem DeployProject_lookup_error (s : ProjectService σ ρ) (newUUID : String) (id : UUID)
    (w : World σ ρ) (err : Error) (hget : s.repo.GetByID w.db id = .error err) :
    DeployProject s newUUID id w =
      (.error ("project not found: " ++ err), w.log (.RepoGetByID id)) := by
  simp [DeployProject, repoGetByID, hget]

theorem DeployProject_create_error (s : ProjectService σ ρ) (newUUID : String) (id : UUID)
    (w : World σ ρ) (project : Project) (err : Error)
    (hget : s.repo.GetByID w.db id = .ok project)
    (hcreate : (s.dockerRuntime.CreateContainer w.engine (deployConfig project newUUID)).1
      = .error err) :
    DeployProject s newUUID id w =
      (.error ("docker create failed: " ++ err),
       { db := w.db
         engine := (s.dockerRuntime.CreateContainer w.engine (deployConfig project newUUID)).2
         trace := w.trace ++ [.RepoGetByID id, .CreateContainer (deployConfig project newUUID)] }) := by
  simp [DeployProject, repoGetByID, dockerCreateContainer, World.log, hget, hcreate]

theorem DeployProject_start_error (s : ProjectService σ ρ) (newUUID : String) (id : UUID)
    (w : World σ ρ) (project : Project) (c : String) (err : Error)
    (hget : s.repo.GetByID w.db id = .ok project)
    (hcreate : (s.dockerRuntime.CreateContainer w.engine (deployConfig project newUUID)).1
      = .ok c)
    (hstart : (s.dockerRuntime.StartContainer
      (s.dockerRuntime.CreateContainer w.engine (deployConfig project newUUID)).2 c).1
      = some err) :
    DeployProject s newUUID id w =
      (.error ("docker start failed: " ++ err),
       { db := w.db
         engine := (s.dockerRuntime.StartContainer
           (s.dockerRuntime.CreateContainer w.engine (deployConfig project newUUID)).2 c).2
         trace := w.trace ++ [.RepoGetByID id, .CreateContainer (deployConfig project newUUID),
           .StartContainer c] }) := by
  simp [DeployProject, repoGetByID, dockerCreateContainer, dockerStartContainer, World.log,
    hget, hcreate, hstart]

theorem DeployProject_success (s : ProjectService σ ρ) (newUUID : String) (id : UUID)
    (w : World σ ρ) (project : Project) (c : String)
    (hget : s.repo.GetByID w.db id = .ok project)
    (hcreate : (s.dockerRuntime.CreateContainer w.engine (deployConfig project newUUID)).1
      = .ok c)
    (hstart : (s.dockerRuntime.StartContainer
      (s.dockerRuntime.CreateContainer w.engine (deployConfig project newUUID)).2 c).1
      = none) :
    DeployProject s newUUID id w =
      (.ok { ID := 0, ProjectID := project.ID, ContainerID := c, Status := "running",
             DeployedAt := 0 },
       { db := (s.repo.Update w.db { project with Status := "running" }).2.2
         engine := (s.dockerRuntime.StartContainer
           (s.dockerRuntime.CreateContainer w.engine (deployConfig project newUUID)).2 c).2
         trace := w.trace ++ [.RepoGetByID id, .CreateContainer (deployConfig project newUUID),
           .StartContainer c, .RepoUpdate { project with Status := "running" }] }) := by
  simp [DeployProject, repoGetByID, dockerCreateContainer, dockerStartContainer, repoUpdate,
    World.log, hget, hcreate, hstart]

/-- Whatever the engine answers, a deploy of a stored project hands exactly one
configuration to `CreateContainer`, the one of `deployConfig`. -/
theorem DeployProject_createdConfigs (s : ProjectService σ ρ) (newUUID : String) (id : UUID)
    (w : World σ ρ) (project : Project) (hget : s.repo.GetByID w.db id = .ok project) :
    createdConfigs (DeployProject s newUUID id w).2.trace =
      createdConfigs w.trace ++ [deployConfig project newUUID] := by
  rcases hc : (s.dockerRuntime.CreateContainer w.engine (deployConfig project newUUID)).1
    with err | c
  · rw [DeployProject_create_error s newUUID id w project err hget hc]
    simp [createdConfigs, List.filterMap_append]
  · rcases hs : (s.dockerRuntime.StartContainer
      (s.dockerRuntime.CreateContainer w.engine (deployConfig project newUUID)).2 c).1
      with _ | err
    · rw [DeployProject_success s newUUID id w project c hget hc hs]
      simp [createdConfigs, List.filterMap_append]
    · rw [DeployProject_start_error s newUUID id w project c err hget hc hs]
      simp [createdConfigs, List.filterMap_append]

end deploy

/-! ## The teardown loop, and the latest deployment -/

section lifecycle
variable {σ ρ : Type}

theorem stopAndRemoveRunning_spec (s : ProjectService σ ρ) (ds : List Deployment) :
    ∀ w : World σ ρ,
      (stopAndRemoveRunning s ds w).trace = w.trace ++ teardownCalls ds
      ∧ (stopAndRemoveRunning s ds w).db = w.db := by
  induction ds with
  | nil => intro w; simp [stopAndRemoveRunning, teardownCalls]
  | cons d ds ih =>
    intro w
    by_cases hd : d.Status = "running"
    · have h := ih (dockerRemoveContainer s d.ContainerID
        (dockerStopContainer s d.ContainerID w).2).2
      simp only [stopAndRemoveRunning, hd, if_true]
      refine ⟨?_, ?_⟩
      · rw [h.1]
        simp [dockerRemoveContainer, dockerStopContainer, World.log, teardownCalls, hd]
      · rw [h.2]
        simp [dockerRemoveContainer, dockerStopContainer, World.log]
    · have h := ih w
      simp only [stopAndRemoveRunning, hd, if_false]
      refine ⟨?_, h.2⟩
      rw [h.1]
      simp [teardownCalls, hd]

theorem teardownCalls_length (ds : List Deployment) :
    (teardownCalls ds).length = 2 * (ds.filter (fun d => d.Status = "running")).length := by
  unfold teardownCalls
  induction ds.filter (fun d => d.Status = "running") with
  | nil => rfl
  | cons d rest ih => simp [List.flatMap_cons, ih]; omega

theorem teardownCalls_isRuntime (ds : List Deployment) :
    (teardownCalls ds).filter Call.isRuntime = teardownCalls ds := by
  unfold teardownCalls
  induction ds.filter (fun d => d.Status = "running") with
  | nil => rfl
  | cons d rest ih => simp [List.flatMap_cons, Call.isRuntime, ih]

theorem latest_eq_of_getLast? (ds : List Deployment) (d : Deployment)
    (hlast : ds.getLast? = some d) (h : ds.length - 1 < ds.length) :
    ds.get ⟨ds.length - 1, h⟩ = d := by
  rw [List.getLast?_eq_getElem?] at hlast
  rw [List.get_eq_getElem]
  exact (List.getElem?_eq_some.mp hlast).2

theorem StartProject_latest (s : ProjectService σ ρ) (id : UUID) (w : World σ ρ)
    (project : Project) (d : Deployment)
    (hget : s.repo.GetByID w.db id = .ok project)
    (hlast : project.Deployments.getLast? = some d) :
    StartProject s id w = dockerStartContainer s d.ContainerID (w.log (.RepoGetByID id)) := by
  simp only [StartProject, repoGetByID, hget]
  split
  · rename_i h
    rw [List.length_eq_zero.mp h] at hlast
    simp at hlast
  · rw [latest_eq_of_getLast? project.Deployments d hlast]

theorem StopProject_latest (s : ProjectService σ ρ) (id : UUID) (w : World σ ρ)
    (project : Project) (d : Deployment)
    (hget : s.repo.GetByID w.db id = .ok project)
    (hlast : project.Deployments.getLast? = some d) :
    StopProject s id w = dockerStopContainer s d.ContainerID (w.log (.RepoGetByID id)) := by
  simp only [StopProject, repoGetByID, hget]
  split
  · rename_i h
    rw [List.length_eq_zero.mp h] at hlast
    simp at hlast
  · rw [latest_eq_of_getLast? project.Deployments d hlast]

end lifecycle

/-! ## The reference store -/

theorem MemStore.GetByID_id (rows : MemStore) (id : UUID) (project : Project)
    (hget : MemStore.GetByID rows id = .ok project) : project.ID = id := by
  unfold MemStore.GetByID at hget
  cases hfind : rows.find? (fun r => r.ID = id) with
  | none => simp [hfind] at hget
  | some p =>
    simp only [hfind, Except.ok.injEq] at hget
    subst hget
    simpa using List.find?_some hfind

theorem MemStore.GetByID_mem (rows : MemStore) (id : UUID) (project : Project)
    (hget : MemStore.GetByID rows id = .ok project) : project ∈ rows := by
  unfold MemStore.GetByID at hget
  cases hfind : rows.find? (fun r => r.ID = id) with
  | none => simp [hfind] at hget
  | some p =>
    simp only [hfind, Except.ok.injEq] at hget
    subst hget
    exact List.mem_of_find?_eq_some hfind

theorem MemStore.GetByID_replace (rows : MemStore) (id : UUID) (old new : Project)
    (hget : MemStore.GetByID rows id = .ok old) (hid : new.ID = id) :
    MemStore.GetByID (rows.map (fun r => if r.ID = new.ID then new else r)) id = .ok new := by
  induction rows with
  | nil => simp [MemStore.GetByID] at hget
  | cons r rest ih =>
    by_cases hr : r.ID = id
    · simp [MemStore.GetByID, hr, hid]
    · have hrest : MemStore.GetByID rest id = .ok old := by
        simpa [MemStore.GetByID, List.find?_cons, hr] using hget
      have := ih hrest
      simp only [MemStore.GetByID, List.map_cons, hid, hr, if_false, List.find?_cons,
        decide_False] at this ⊢
      exact this

/-- In the reference store, `Update` never changes what status a lookup of the same key
returns, as long as the record written carries the stored status. -/
theorem MemStore.Update_keeps_status (rows : MemStore) (id : UUID) (old new : Project)
    (hget : MemStore.GetByID rows id = .ok old) (hid : new.ID = id)
    (hstatus : new.Status = old.Status) :
    ∃ stored : Project,
      MemStore.GetByID (MemStore.Update rows new).2.2 id = .ok stored
      ∧ stored.Status = old.Status := by
  unfold MemStore.Update
  split
  · exact ⟨old, hget, rfl⟩
  · split
    · exact ⟨old, hget, rfl⟩
    · split
      · exact ⟨new, MemStore.GetByID_replace rows id old new hget hid, hstatus⟩
      · rename_i hnone
        exfalso
        apply hnone
        rw [List.any_eq_true]
        refine ⟨old, MemStore.GetByID_mem rows id old hget, ?_⟩
        simp [MemStore.GetByID_id rows id old hget, hid]

/-! ## The world after `UpdateProject` -/

theorem UpdateProject_world {σ ρ : Type} (s : ProjectService σ ρ) (id : UUID)
    (name image subdomain : String) (port : Int) (w : World σ ρ) (project : Project)
    (hget : s.repo.GetByID w.db id = .ok project) :
    (UpdateProject s id name image subdomain port w).2
      = { db := (s.repo.Update w.db
            { project with Name := name, ImageName := image, Subdomain := subdomain,
                           ContainerPort := port }).2.2
          engine := w.engine
          trace := w.trace
            ++ [.RepoGetByID id,
                .RepoUpdate { project with Name := name, ImageName := image,
                                           Subdomain := subdomain, ContainerPort := port }] } := by
  simp only [UpdateProject, repoGetByID, repoUpdate, hget, World.log]
  cases h : (s.repo.Update w.db
      { project with Name := name, ImageName := image, Subdomain := subdomain,
                     ContainerPort := port }).1 <;> simp

/-! ## `CreateProject` -/

theorem stringsContains_space (cs : List Char) :
    stringsContains cs " ".data = true ↔ ' ' ∈ cs := by
  have hsp : " ".data = [' '] := rfl
  rw [hsp]
  induction cs with
  | nil => simp [stringsContains]
  | cons c cs ih =>
    simp only [stringsContains, Bool.or_eq_true, ih, List.mem_cons]
    constructor
    · rintro (h | h)
      · left
        simp [List.isPrefixOf] at h
        exact h
      · right
        exact h
    · rintro (h | h)
      · left
        simp [List.isPrefixOf]
        exact h
      · right
        exact h

theorem CreateProject_space {σ ρ : Type} (s : ProjectService σ ρ) (userID : UUID)
    (name image subdomain : String) (port : Int) (w : World σ ρ)
    (hspace : ' ' ∈ subdomain.data) :
    CreateProject s userID name image subdomain port w
      = (.error "subdomain cannot contain spaces", w) := by
  simp [CreateProject, (stringsContains_space subdomain.data).mpr hspace]

theorem CreateProject_world {σ ρ : Type} (s : ProjectService σ ρ) (userID : UUID)
    (name image subdomain : String) (port : Int) (w : World σ ρ)
    (hspace : ' ' ∉ subdomain.data) :
    (CreateProject s userID name image subdomain port w).2
      = { db := (s.repo.Create w.db (newProject userID name image subdomain port)).2.2
          engine := w.engine
          trace := w.trace ++ [.RepoCreate (newProject userID name image subdomain port)] } := by
  have hno : stringsContains subdomain.data " ".data = false := by
    rw [Bool.eq_false_iff]
    exact fun h => hspace ((stringsContains_space subdomain.data).mp h)
  simp only [CreateProject, hno, repoCreate, World.log, newProject]
  cases h : (s.repo.Create w.db
      { ID := 0, UserID := userID, Name := name, Subdomain := subdomain, ImageName := image,
        ContainerPort := port, Status := "created", CreatedAt := 0, UpdatedAt := 0,
        Deployments := [], EnvVars := [] }).1 <;> simp

theorem CreateProject_result {σ ρ : Type} (s : ProjectService σ ρ) (userID : UUID)
    (name image subdomain : String) (port : Int) (w : World σ ρ)
    (hspace : ' ' ∉ subdomain.data) :
    (CreateProject s userID name image subdomain port w).1
      = match (s.repo.Create w.db (newProject userID name image subdomain port)).1 with
        | some err => .error err
        | none => .ok (s.repo.Create w.db (newProject userID name image subdomain port)).2.1 := by
  have hno : stringsContains subdomain.data " ".data = false := by
    rw [Bool.eq_false_iff]
    exact fun h => hspace ((stringsContains_space subdomain.data).mp h)
  simp only [CreateProject, hno, repoCreate, World.log, newProject]
  cases h : (s.repo.Create w.db
      { ID := 0, UserID := userID, Name := name, Subdomain := subdomain, ImageName := image,
        ContainerPort := port, Status := "created", CreatedAt := 0, UpdatedAt := 0,
        Deployments := [], EnvVars := [] }).1 <;> simp

section lookup
variable {σ ρ : Type}

theorem StartProject_lookup_error (s : ProjectService σ ρ) (id : UUID) (w : World σ ρ)
    (err : Error) (hget : s.repo.GetByID w.db id = .error err) :
    StartProject s id w = (some err, w.log (.RepoGetByID id)) := by
  simp [StartProject, repoGetByID, hget]

theorem StopProject_lookup_error (s : ProjectService σ ρ) (id : UUID) (w : World σ ρ)
    (err : Error) (hget : s.repo.GetByID w.db id = .error err) :
    StopProject s id w = (some err, w.log (.RepoGetByID id)) := by
  simp [StopProject, repoGetByID, hget]

theorem DeleteProject_lookup_error (s : ProjectService σ ρ) (id : UUID) (w : World σ ρ)
    (err : Error) (hget : s.repo.GetByID w.db id = .error err) :
    DeleteProject s id w = (some err, w.log (.RepoGetByID id)) := by
  simp [DeleteProject, repoGetByID, hget]

theorem UpdateProject_lookup_error (s : ProjectService σ ρ) (id : UUID)
    (name image subdomain : String) (port : Int) (w : World σ ρ)
    (err : Error) (hget : s.repo.GetByID w.db id = .error err) :
    UpdateProject s id name image subdomain port w = (.error err, w.log (.RepoGetByID id)) := by
  simp [UpdateProject, repoGetByID, hget]

/-- The lookup alone is neither a runtime call nor a store write. -/
theorem lookup_only_quiet (w : World σ ρ) (id : UUID) :
    ((w.log (.RepoGetByID id)).trace.drop w.trace.length).filter
      (fun c => c.isRuntime || c.isStoreWrite) = []
    ∧ (w.log (.RepoGetByID id)).db = w.db
    ∧ (w.log (.RepoGetByID id)).engine = w.engine := by
  simp [World.log, Call.isRuntime, Call.isStoreWrite]

end lookup

/-! ## The configuration of a deploy -/

theorem foldl_env_append (vars : List EnvVar) :
    ∀ acc : List String,
      vars.foldl (fun envs env => envs ++ [env.Key ++ "=" ++ env.Value]) acc
        = acc ++ vars.map (fun env => env.Key ++ "=" ++ env.Value) := by
  induction vars with
  | nil => intro acc; simp
  | cons v rest ih => intro acc; simp [List.foldl_cons, ih]

theorem envList_eq_map (project : Project) :
    envList project = project.EnvVars.map (fun env => env.Key ++ "=" ++ env.Value) := by
  simp [envList, foldl_env_append]

theorem take_eight_length (newUUID : String) (hlen : newUUID.length = 36) :
    (newUUID.take 8).length = 8 := by
  rw [← String.length_data] at hlen ⊢
  rw [String.data_take, List.length_take, hlen]
  rfl

/-! ## Port errors that are returned -/

section returned
variable {σ ρ : Type}

theorem StartProject_runtime_error (s : ProjectService σ ρ) (id : UUID) (w : World σ ρ)
    (project : Project) (d : Deployment) (err : Error)
    (hget : s.repo.GetByID w.db id = .ok project)
    (hlast : project.Deployments.getLast? = some d)
    (hfail : (s.dockerRuntime.StartContainer w.engine d.ContainerID).1 = some err) :
    (StartProject s id w).1 = some err := by
  rw [StartProject_latest s id w project d hget hlast]
  simpa [dockerStartContainer, World.log] using hfail

theorem StopProject_runtime_error (s : ProjectService σ ρ) (id : UUID) (w : World σ ρ)
    (project : Project) (d : Deployment) (err : Error)
    (hget : s.repo.GetByID w.db id = .ok project)
    (hlast : project.Deployments.getLast? = some d)
    (hfail : (s.dockerRuntime.StopContainer w.engine d.ContainerID).1 = some err) :
    (StopProject s id w).1 = some err := by
  rw [StopProject_latest s id w project d hget hlast]
  simpa [dockerStopContainer, World.log] using hfail

theorem UpdateProject_store_error (s : ProjectService σ ρ) (id : UUID)
    (name image subdomain : String) (port : Int) (w : World σ ρ) (project : Project)
    (err : Error)
    (hget : s.repo.GetByID w.db id = .ok project)
    (hfail : (s.repo.Update w.db
      { project with Name := name, ImageName := image, Subdomain := subdomain,
                     ContainerPort := port }).1 = some err) :
    (UpdateProject s id name image subdomain port w).1 = .error err := by
  simp [UpdateProject, repoGetByID, repoUpdate, hget, World.log, hfail]

theorem CreateProject_store_error (s : ProjectService σ ρ) (userID : UUID)
    (name image subdomain : String) (port : Int) (w : World σ ρ) (err : Error)
    (hspace : ' ' ∉ subdomain.data)
    (hfail : (s.repo.Create w.db (newProject userID name image subdomain port)).1 = some err) :
    (CreateProject s userID name image subdomain port w).1 = .error err := by
  rw [CreateProject_result s userID name image subdomain port w hspace, hfail]

end returned

/-! ## The engine after a teardown and after a deploy -/

section engine
variable {σ ρ : Type}

theorem stopAndRemoveRunning_engine (s : ProjectService σ ρ) (ds : List Deployment) :
    ∀ w : World σ ρ,
      (stopAndRemoveRunning s ds w).engine = teardownEngine s.dockerRuntime ds w.engine := by
  induction ds with
  | nil => intro w; simp [stopAndRemoveRunning, teardownEngine]
  | cons d ds ih =>
    intro w
    by_cases hd : d.Status = "running"
    · simp only [stopAndRemoveRunning, hd, if_true]
      rw [ih]
      simp [teardownEngine, hd, dockerRemoveContainer, dockerStopContainer, World.log]
    · simp only [stopAndRemoveRunning, hd, if_false]
      rw [ih]
      simp [teardownEngine, hd]

theorem DeleteProject_engine (s : ProjectService σ ρ) (id : UUID) (w : World σ ρ)
    (project : Project) (hget : s.repo.GetByID w.db id = .ok project) :
    (DeleteProject s id w).2.engine
      = teardownEngine s.dockerRuntime project.Deployments w.engine := by
  simp only [DeleteProject, repoGetByID, hget]
  split
  · simp [repoDelete, World.log, stopAndRemoveRunning_engine]
  · rename_i h
    have hnil : project.Deployments = [] := by
      cases hds : project.Deployments with
      | nil => rfl
      | cons d ds => simp [hds] at h
    simp [repoDelete, World.log, hnil, teardownEngine]

theorem DeployProject_engine (s : ProjectService σ ρ) (newUUID : String) (id : UUID)
    (w : World σ ρ) (project : Project) (hget : s.repo.GetByID w.db id = .ok project) :
    (DeployProject s newUUID id w).2.engine
      = engineAfterDeploy s.dockerRuntime w.engine (deployConfig project newUUID) := by
  rcases hc : (s.dockerRuntime.CreateContainer w.engine (deployConfig project newUUID)).1
    with err | c
  · rw [DeployProject_create_error s newUUID id w project err hget hc]
    simp [engineAfterDeploy, hc]
  · rcases hs : (s.dockerRuntime.StartContainer
      (s.dockerRuntime.CreateContainer w.engine (deployConfig project newUUID)).2 c).1
      with _ | err
    · rw [DeployProject_success s newUUID id w project c hget hc hs]
      simp [engineAfterDeploy, hc]
    · rw [DeployProject_start_error s newUUID id w project c err hget hc hs]
      simp [engineAfterDeploy, hc]

end engine

/-! ## Container names -/

theorem deployConfig_name (project : Project) (newUUID : String) :
    (deployConfig project newUUID).Name = project.Subdomain ++ "-" ++ newUUID.take 8 := rfl

/-- Two names under one subdomain are equal exactly when their suffixes are. -/
theorem name_eq_iff (subdomain a b : String) :
    subdomain ++ "-" ++ a = subdomain ++ "-" ++ b ↔ a = b := by
  constructor
  · intro h
    have hdata := congrArg String.data h
    simp only [String.data_append, List.append_assoc] at hdata
    exact String.ext (List.append_cancel_left (List.append_cancel_left hdata))
  · intro h
    rw [h]

/-- Over the naming engine, a second deploy whose uuid string shares its first 8
characters with the first one asks for the same name and is refused. -/
theorem naming_engine_refuses_equal_suffix :
    sampleUUID ≠ clashUUID ∧ sampleUUID.take 8 = clashUUID.take 8
    ∧ (DeployProject namingService clashUUID 7
        (DeployProject namingService sampleUUID 7 namingWorld).2).1
      = .error "docker create failed: Conflict. The container name is already in use"
    ∧ (DeployProject namingService clashUUID 7
        (DeployProject namingService sampleUUID 7 namingWorld).2).2.engine
      = ["blog-6ba7b810"] := by
  decide

/-! ## Claims -/

/-- C1 at subdomain `blog`, base domain `example.com`, port 3000: with `BASE_DOMAIN` set
to `example.com` the service reports that base domain to its clients, and a deploy of
the stored project `blog` hands the runtime one configuration whose label map has the
three entries the claim names, with `traefik.enable` = `true` and the port `3000`, but
with the host rule of `blog.localhost`, not of `blog.example.com`. -/
theorem C1_rule_ignores_base_domain :
    reportedBaseDomain exampleEnv = "example.com"
    ∧ MemStore.GetByID (recordingWorld [blogProject] engineOk).db 7 = .ok blogProject
    ∧ blogProject.Subdomain = "blog" ∧ blogProject.ContainerPort = 3000
    ∧ (DeployProject recordingService sampleUUID 7
        (recordingWorld [blogProject] engineOk)).2.engine.received
      = [.CreateContainer
           { Name := "blog-6ba7b810", Image := "nginx:alpine", Env := ["MODE=prod"],
             Labels :=
               [ ("traefik.enable", "true"),
                 ("traefik.http.routers.blog.rule", "Host(`blog.localhost`)"),
                 ("traefik.http.services.blog.loadbalancer.server.port", "3000") ],
             Port := 3000 },
         .StartContainer "c1"]
    ∧ (createdConfigs (DeployProject recordingService sampleUUID 7
        (recordingWorld [blogProject] engineOk)).2.trace).map
        (fun config => GoMap.get config.Labels "traefik.http.routers.blog.rule")
      = [some "Host(`blog.localhost`)"]
    ∧ "Host(`blog.localhost`)" ≠ "Host(`blog.example.com`)" := by
  decide

/-- C2 at a stored project without deployments, on an engine where create answers `c1`
and start succeeds: `DeployProject` returns the running deployment of `c1` and the store
holds the project with status `running`, but its one store write is the `Update` of the
project row, and the stored project still has no deployment at all. -/
theorem C2_deploy_success_stores_no_deployment :
    (DeployProject refService sampleUUID 7 (blogWorld engineOk)).1
      = .ok { ID := 0, ProjectID := 7, ContainerID := "c1", Status := "running",
              DeployedAt := 0 }
    ∧ (DeployProject refService sampleUUID 7 (blogWorld engineOk)).2.trace.filter
        Call.isStoreWrite = [.RepoUpdate { blogProject with Status := "running" }]
    ∧ MemStore.GetByID (DeployProject refService sampleUUID 7 (blogWorld engineOk)).2.db 7
      = .ok { blogProject with Status := "running" }
    ∧ ({ blogProject with Status := "running" } : Project).Deployments = []
    ∧ (DeployProject refService sampleUUID 7 (blogWorld engineOk)).2.db.all
        (fun r => r.Deployments.all (fun d => d.ContainerID ≠ "c1")) = true := by
  decide

/-- C3 as stated fails on an engine where create answers `c1` and start fails: the deploy
returns an error, but `RemoveContainer` is never called, no row of the store mentions
`c1`, and the stored project keeps status `created` instead of `failed`. -/
theorem C3_no_compensation_counterexample :
    (DeployProject refService sampleUUID 7 (blogWorld engineStartFails)).1
      = .error "docker start failed: start refused"
    ∧ (DeployProject refService sampleUUID 7 (blogWorld engineStartFails)).2.trace
      = [.RepoGetByID 7, .CreateContainer (deployConfig blogProject sampleUUID),
         .StartContainer "c1"]
    ∧ Call.RemoveContainer "c1"
      ∉ (DeployProject refService sampleUUID 7 (blogWorld engineStartFails)).2.trace
    ∧ MemStore.GetByID (DeployProject refService sampleUUID 7 (blogWorld engineStartFails)).2.db 7
      = .ok blogProject
    ∧ blogProject.Status ≠ "failed"
    ∧ blogProject.Deployments = [] := by
  decide

/-- C3, as the code has it: for every stored project, when `CreateContainer` succeeds with
container id `c` and `StartContainer(c)` then fails, `DeployProject` returns an error with
no compensating step: its calls are the lookup, the create and the failed start, so
`RemoveContainer` is not called and no store write is made, and the persisted project
status is the one it was. -/
theorem C3_start_failure_returns_error {σ ρ : Type} (s : ProjectService σ ρ)
    (newUUID : String) (id : UUID) (w : World σ ρ) (project : Project) (c : String)
    (err : Error)
    (hget : s.repo.GetByID w.db id = .ok project)
    (hcreate : (s.dockerRuntime.CreateContainer w.engine (deployConfig project newUUID)).1
      = .ok c)
    (hstart : (s.dockerRuntime.StartContainer
      (s.dockerRuntime.CreateContainer w.engine (deployConfig project newUUID)).2 c).1
      = some err) :
    (DeployProject s newUUID id w).1 = .error ("docker start failed: " ++ err)
    ∧ (DeployProject s newUUID id w).2.trace
      = w.trace ++ [.RepoGetByID id, .CreateContainer (deployConfig project newUUID),
          .StartContainer c]
    ∧ (∀ x : String, Call.RemoveContainer x
        ∉ (DeployProject s newUUID id w).2.trace.drop w.trace.length)
    ∧ (∀ call ∈ (DeployProject s newUUID id w).2.trace.drop w.trace.length,
        call.isStoreWrite = false)
    ∧ ∃ stored : Project,
        s.repo.GetByID (DeployProject s newUUID id w).2.db id = .ok stored
        ∧ stored.Status = project.Status := by
  rw [DeployProject_start_error s newUUID id w project c err hget hcreate hstart]
  refine ⟨rfl, rfl, ?_, ?_, project, hget, rfl⟩
  · intro x
    simp
  · intro call hcall
    simp at hcall
    rcases hcall with h | h | h <;> subst h <;> rfl

/-- C3 at `blogProject` on the engine whose start fails. -/
theorem C3_start_failure_returns_error_witness :
    (DeployProject refService sampleUUID 7 (blogWorld engineStartFails)).1
      = .error ("docker start failed: " ++ "start refused")
    ∧ (DeployProject refService sampleUUID 7 (blogWorld engineStartFails)).2.trace
      = (blogWorld engineStartFails).trace
        ++ [.RepoGetByID 7, .CreateContainer (deployConfig blogProject sampleUUID),
          .StartContainer "c1"]
    ∧ (∀ x : String, Call.RemoveContainer x
        ∉ (DeployProject refService sampleUUID 7 (blogWorld engineStartFails)).2.trace.drop
            (blogWorld engineStartFails).trace.length)
    ∧ (∀ call ∈ (DeployProject refService sampleUUID 7 (blogWorld engineStartFails)).2.trace.drop
            (blogWorld engineStartFails).trace.length,
        call.isStoreWrite = false)
    ∧ ∃ stored : Project,
        refService.repo.GetByID
          (DeployProject refService sampleUUID 7 (blogWorld engineStartFails)).2.db 7
          = .ok stored
        ∧ stored.Status = blogProject.Status :=
  C3_start_failure_returns_error refService sampleUUID 7 (blogWorld engineStartFails)
    blogProject "c1" "start refused" rfl rfl rfl

/-- C4: for every stored project, when `CreateContainer` fails, `DeployProject` returns an
error (and so no deployment), its calls are the lookup and the failed create alone, so
`StartContainer` is never called and nothing is written to the store: the store is the
one it was and still returns the same project, status and deployments included. -/
theorem C4_create_failure_writes_nothing {σ ρ : Type} (s : ProjectService σ ρ)
    (newUUID : String) (id : UUID) (w : World σ ρ) (project : Project) (err : Error)
    (hget : s.repo.GetByID w.db id = .ok project)
    (hcreate : (s.dockerRuntime.CreateContainer w.engine (deployConfig project newUUID)).1
      = .error err) :
    (DeployProject s newUUID id w).1 = .error ("docker create failed: " ++ err)
    ∧ (DeployProject s newUUID id w).2.trace
      = w.trace ++ [.RepoGetByID id, .CreateContainer (deployConfig project newUUID)]
    ∧ (∀ x : String, Call.StartContainer x
        ∉ (DeployProject s newUUID id w).2.trace.drop w.trace.length)
    ∧ (∀ call ∈ (DeployProject s newUUID id w).2.trace.drop w.trace.length,
        call.isStoreWrite = false)
    ∧ (DeployProject s newUUID id w).2.db = w.db
    ∧ s.repo.GetByID (DeployProject s newUUID id w).2.db id = .ok project := by
  rw [DeployProject_create_error s newUUID id w project err hget hcreate]
  refine ⟨rfl, rfl, ?_, ?_, rfl, hget⟩
  · intro x
    simp
  · intro call hcall
    simp at hcall
    rcases hcall with h | h <;> subst h <;> rfl

/-- C4 at `blogProject` on the engine whose create fails. -/
theorem C4_create_failure_writes_nothing_witness :
    (DeployProject refService sampleUUID 7 (blogWorld engineCreateFails)).1
      = .error ("docker create failed: " ++ "no such image")
    ∧ (DeployProject refService sampleUUID 7 (blogWorld engineCreateFails)).2.trace
      = (blogWorld engineCreateFails).trace
        ++ [.RepoGetByID 7, .CreateContainer (deployConfig blogProject sampleUUID)]
    ∧ (∀ x : String, Call.StartContainer x
        ∉ (DeployProject refService sampleUUID 7 (blogWorld engineCreateFails)).2.trace.drop
            (blogWorld engineCreateFails).trace.length)
    ∧ (∀ call ∈ (DeployProject refService sampleUUID 7 (blogWorld engineCreateFails)).2.trace.drop
            (blogWorld engineCreateFails).trace.length,
        call.isStoreWrite = false)
    ∧ (DeployProject refService sampleUUID 7 (blogWorld engineCreateFails)).2.db
      = (blogWorld engineCreateFails).db
    ∧ refService.repo.GetByID
        (DeployProject refService sampleUUID 7 (blogWorld engineCreateFails)).2.db 7
      = .ok blogProject :=
  C4_create_failure_writes_nothing refService sampleUUID 7 (blogWorld engineCreateFails)
    blogProject "no such image" rfl rfl

/-- C5: for every stored project and every runtime, whatever its calls answer,
`DeleteProject` makes these calls in this order: the lookup, then `StopContainer` followed by
`RemoveContainer` for each deployment with status `running` in history order (two calls
for each of the M running ones, none for any other id), then the store's `Delete` of the
project id, whose result it returns; the engine is left in the state those runtime calls
produce, in that order; with no running deployment it makes no runtime call at all and
the engine is the one it was. -/
theorem C5_delete_tears_down_running {σ ρ : Type} (s : ProjectService σ ρ) (id : UUID)
    (w : World σ ρ) (project : Project)
    (hget : s.repo.GetByID w.db id = .ok project) :
    (DeleteProject s id w).2.trace
      = w.trace ++ [.RepoGetByID id] ++ teardownCalls project.Deployments ++ [.RepoDelete id]
    ∧ ((DeleteProject s id w).2.trace.drop w.trace.length).filter Call.isRuntime
      = teardownCalls project.Deployments
    ∧ (teardownCalls project.Deployments).length
      = 2 * (project.Deployments.filter (fun d => d.Status = "running")).length
    ∧ (DeleteProject s id w).1 = (s.repo.Delete w.db id).1
    ∧ (DeleteProject s id w).2.db = (s.repo.Delete w.db id).2
    ∧ (DeleteProject s id w).2.engine
      = teardownEngine s.dockerRuntime project.Deployments w.engine
    ∧ (project.Deployments.filter (fun d => d.Status = "running") = [] →
        ((DeleteProject s id w).2.trace.drop w.trace.length).filter Call.isRuntime = []
        ∧ (DeleteProject s id w).2.engine = w.engine) := by
  have hloop := stopAndRemoveRunning_spec s project.Deployments (w.log (.RepoGetByID id))
  simp only [World.log] at hloop
  have htrace : (DeleteProject s id w).2.trace
      = w.trace ++ [.RepoGetByID id] ++ teardownCalls project.Deployments
        ++ [.RepoDelete id] := by
    simp only [DeleteProject, repoGetByID, hget]
    split
    · simp [repoDelete, World.log, hloop.1]
    · rename_i h
      have hnil : project.Deployments = [] := by
        cases hds : project.Deployments with
        | nil => rfl
        | cons d ds => simp [hds] at h
      simp [repoDelete, World.log, hnil, teardownCalls]
  have hdb : (DeleteProject s id w).2.db = (s.repo.Delete w.db id).2
      ∧ (DeleteProject s id w).1 = (s.repo.Delete w.db id).1 := by
    simp only [DeleteProject, repoGetByID, hget]
    split
    · simp [repoDelete, World.log, hloop.2]
    · simp [repoDelete, World.log]
  have hrt : ((DeleteProject s id w).2.trace.drop w.trace.length).filter Call.isRuntime
      = teardownCalls project.Deployments := by
    rw [htrace]
    simp [List.append_assoc, List.filter_append, teardownCalls_isRuntime, Call.isRuntime]
  have hengine := DeleteProject_engine s id w project hget
  refine ⟨htrace, hrt, teardownCalls_length _, hdb.2, hdb.1, hengine, ?_⟩
  intro hnone
  rw [hrt, hengine]
  simp [teardownCalls, teardownEngine, hnone]

/-- C5 at `shopProject` (two of three deployments `running`) on a recording engine whose
stop and remove both fail: the engine has received stop and remove of `c1`, then of
`c3`, and nothing else. -/
theorem C5_delete_tears_down_running_witness :
    ((DeleteProject recordingService 9
        (recordingWorld [blogProject, shopProject] engineTeardownFails)).2.trace
      = (recordingWorld [blogProject, shopProject] engineTeardownFails).trace
        ++ [.RepoGetByID 9] ++ teardownCalls shopProject.Deployments ++ [.RepoDelete 9]
    ∧ ((DeleteProject recordingService 9
        (recordingWorld [blogProject, shopProject] engineTeardownFails)).2.trace.drop
        (recordingWorld [blogProject, shopProject] engineTeardownFails).trace.length).filter
        Call.isRuntime
      = teardownCalls shopProject.Deployments
    ∧ (teardownCalls shopProject.Deployments).length
      = 2 * (shopProject.Deployments.filter (fun d => d.Status = "running")).length
    ∧ (DeleteProject recordingService 9
        (recordingWorld [blogProject, shopProject] engineTeardownFails)).1
      = (recordingService.repo.Delete
          (recordingWorld [blogProject, shopProject] engineTeardownFails).db 9).1
    ∧ (DeleteProject recordingService 9
        (recordingWorld [blogProject, shopProject] engineTeardownFails)).2.db
      = (recordingService.repo.Delete
          (recordingWorld [blogProject, shopProject] engineTeardownFails).db 9).2
    ∧ (DeleteProject recordingService 9
        (recordingWorld [blogProject, shopProject] engineTeardownFails)).2.engine
      = teardownEngine recordingService.dockerRuntime shopProject.Deployments
          (recordingWorld [blogProject, shopProject] engineTeardownFails).engine
    ∧ (shopProject.Deployments.filter (fun d => d.Status = "running") = [] →
        ((DeleteProject recordingService 9
          (recordingWorld [blogProject, shopProject] engineTeardownFails)).2.trace.drop
          (recordingWorld [blogProject, shopProject] engineTeardownFails).trace.length).filter
          Call.isRuntime = []
        ∧ (DeleteProject recordingService 9
          (recordingWorld [blogProject, shopProject] engineTeardownFails)).2.engine
          = (recordingWorld [blogProject, shopProject] engineTeardownFails).engine))
    ∧ (DeleteProject recordingService 9
        (recordingWorld [blogProject, shopProject] engineTeardownFails)).2.engine.received
      = [.StopContainer "c1", .RemoveContainer "c1", .StopContainer "c3",
         .RemoveContainer "c3"] :=
  ⟨C5_delete_tears_down_running recordingService 9
      (recordingWorld [blogProject, shopProject] engineTeardownFails) shopProject rfl,
    by decide⟩

/-- C6: for every stored project whose deployment list is empty, `StartProject` and
`StopProject` each return the error `no deployments found for this project` after the
lookup alone: no call reaches the container runtime, no write reaches the store, and the
store and the engine are the ones they were. -/
theorem C6_no_deployment_error {σ ρ : Type} (s : ProjectService σ ρ) (id : UUID)
    (w : World σ ρ) (project : Project)
    (hget : s.repo.GetByID w.db id = .ok project)
    (hempty : project.Deployments = []) :
    StartProject s id w
      = (some "no deployments found for this project",
         { db := w.db, engine := w.engine, trace := w.trace ++ [.RepoGetByID id] })
    ∧ StopProject s id w
      = (some "no deployments found for this project",
         { db := w.db, engine := w.engine, trace := w.trace ++ [.RepoGetByID id] })
    ∧ ((StartProject s id w).2.trace.drop w.trace.length).filter
        (fun c => c.isRuntime || c.isStoreWrite) = []
    ∧ ((StopProject s id w).2.trace.drop w.trace.length).filter
        (fun c => c.isRuntime || c.isStoreWrite) = [] := by
  have hstart : StartProject s id w
      = (some "no deployments found for this project",
         { db := w.db, engine := w.engine, trace := w.trace ++ [.RepoGetByID id] }) := by
    simp only [StartProject, repoGetByID, hget]
    split
    · rfl
    · rename_i h
      simp [hempty] at h
  have hstop : StopProject s id w
      = (some "no deployments found for this project",
         { db := w.db, engine := w.engine, trace := w.trace ++ [.RepoGetByID id] }) := by
    simp only [StopProject, repoGetByID, hget]
    split
    · rfl
    · rename_i h
      simp [hempty] at h
  refine ⟨hstart, hstop, ?_, ?_⟩
  · rw [hstart]
    simp [Call.isRuntime, Call.isStoreWrite]
  · rw [hstop]
    simp [Call.isRuntime, Call.isStoreWrite]

/-- C6 at `blogProject`, which has no deployment. -/
theorem C6_no_deployment_error_witness :
    StartProject refService 7 (blogWorld engineOk)
      = (some "no deployments found for this project",
         { db := (blogWorld engineOk).db, engine := (blogWorld engineOk).engine,
           trace := (blogWorld engineOk).trace ++ [.RepoGetByID 7] })
    ∧ StopProject refService 7 (blogWorld engineOk)
      = (some "no deployments found for this project",
         { db := (blogWorld engineOk).db, engine := (blogWorld engineOk).engine,
           trace := (blogWorld engineOk).trace ++ [.RepoGetByID 7] })
    ∧ ((StartProject refService 7 (blogWorld engineOk)).2.trace.drop
        (blogWorld engineOk).trace.length).filter
        (fun c => c.isRuntime || c.isStoreWrite) = []
    ∧ ((StopProject refService 7 (blogWorld engineOk)).2.trace.drop
        (blogWorld engineOk).trace.length).filter
        (fun c => c.isRuntime || c.isStoreWrite) = [] :=
  C6_no_deployment_error refService 7 (blogWorld engineOk) blogProject rfl rfl

/-- C7 as stated fails: starting the stopped project `shopProject` succeeds on the engine
and leaves its stored status `stopped`, and stopping the running project `liveProject`
succeeds and leaves its stored status `running`. -/
theorem C7_status_not_flipped_counterexample :
    StartProject refService 9 (shopWorld engineOk)
      = (none, { db := [blogProject, shopProject], engine := engineOk,
                 trace := [.RepoGetByID 9, .StartContainer "c3"] })
    ∧ MemStore.GetByID (StartProject refService 9 (shopWorld engineOk)).2.db 9
      = .ok shopProject
    ∧ shopProject.Status = "stopped" ∧ shopProject.Status ≠ "running"
    ∧ (StopProject refService 11 (liveWorld engineOk)).1 = none
    ∧ (StopProject refService 11 (liveWorld engineOk)).2.trace
      = [.RepoGetByID 11, .StopContainer "c5"]
    ∧ MemStore.GetByID (StopProject refService 11 (liveWorld engineOk)).2.db 11
      = .ok liveProject
    ∧ liveProject.Status = "running" ∧ liveProject.Status ≠ "stopped" := by
  refine ⟨rfl, ?_, ?_, ?_, ?_, ?_, ?_, ?_, ?_⟩ <;> decide

/-- C7, as the code has it: for every stored project with at least one deployment, the
last of the list being `d`, when the runtime's `StartContainer` (resp. `StopContainer`)
call on the container of `d` succeeds, `StartProject` (resp. `StopProject`) returns no
error and makes no store write: its calls are the lookup and that one runtime call, the
store is the one it was, so the persisted project keeps the status it had and gains no
deployment. -/
theorem C7_start_stop_leave_store {σ ρ : Type} (s : ProjectService σ ρ) (id : UUID)
    (w : World σ ρ) (project : Project) (d : Deployment)
    (hget : s.repo.GetByID w.db id = .ok project)
    (hlast : project.Deployments.getLast? = some d) :
    ((s.dockerRuntime.StartContainer w.engine d.ContainerID).1 = none →
      (StartProject s id w).1 = none
      ∧ (StartProject s id w).2.trace
        = w.trace ++ [.RepoGetByID id, .StartContainer d.ContainerID]
      ∧ (StartProject s id w).2.db = w.db
      ∧ s.repo.GetByID (StartProject s id w).2.db id = .ok project)
    ∧ ((s.dockerRuntime.StopContainer w.engine d.ContainerID).1 = none →
      (StopProject s id w).1 = none
      ∧ (StopProject s id w).2.trace
        = w.trace ++ [.RepoGetByID id, .StopContainer d.ContainerID]
      ∧ (StopProject s id w).2.db = w.db
      ∧ s.repo.GetByID (StopProject s id w).2.db id = .ok project) := by
  constructor
  · intro hok
    rw [StartProject_latest s id w project d hget hlast]
    simp [dockerStartContainer, World.log, hok, hget]
  · intro hok
    rw [StopProject_latest s id w project d hget hlast]
    simp [dockerStopContainer, World.log, hok, hget]

/-- C7 at `shopProject`, whose last deployment is the one of container `c3`. -/
theorem C7_start_stop_leave_store_witness :
    ((refService.dockerRuntime.StartContainer (shopWorld engineOk).engine "c3").1 = none →
      (StartProject refService 9 (shopWorld engineOk)).1 = none
      ∧ (StartProject refService 9 (shopWorld engineOk)).2.trace
        = (shopWorld engineOk).trace ++ [.RepoGetByID 9, .StartContainer "c3"]
      ∧ (StartProject refService 9 (shopWorld engineOk)).2.db = (shopWorld engineOk).db
      ∧ refService.repo.GetByID (StartProject refService 9 (shopWorld engineOk)).2.db 9
        = .ok shopProject)
    ∧ ((refService.dockerRuntime.StopContainer (shopWorld engineOk).engine "c3").1 = none →
      (StopProject refService 9 (shopWorld engineOk)).1 = none
      ∧ (StopProject refService 9 (shopWorld engineOk)).2.trace
        = (shopWorld engineOk).trace ++ [.RepoGetByID 9, .StopContainer "c3"]
      ∧ (StopProject refService 9 (shopWorld engineOk)).2.db = (shopWorld engineOk).db
      ∧ refService.repo.GetByID (StopProject refService 9 (shopWorld engineOk)).2.db 9
        = .ok shopProject) :=
  C7_start_stop_leave_store refService 9 (shopWorld engineOk) shopProject
    { ID := 3, ProjectID := 9, ContainerID := "c3", Status := "running", DeployedAt := 3 }
    rfl rfl

/-- C8 as stated fails: `liveProject` is stored `running` with a `running` deployment, an
update changes its image from `live:1` to `live:2` and succeeds, and the stored status
is still `running`. -/
theorem C8_update_keeps_running_counterexample :
    MemStore.GetByID (liveWorld engineOk).db 11 = .ok liveProject
    ∧ liveProject.Status = "running"
    ∧ liveProject.Deployments.getLast?.map (fun d => d.Status) = some "running"
    ∧ liveProject.ImageName ≠ "live:2"
    ∧ (UpdateProject refService 11 "Live" "live:2" "live" 80 (liveWorld engineOk)).1
      = .ok { liveProject with ImageName := "live:2" }
    ∧ MemStore.GetByID
        (UpdateProject refService 11 "Live" "live:2" "live" 80 (liveWorld engineOk)).2.db 11
      = .ok { liveProject with ImageName := "live:2" }
    ∧ ({ liveProject with ImageName := "live:2" } : Project).Status = "running" := by
  decide

/-- C8, as the code has it: for every project stored in the reference store, whatever
its deployments and whatever the new name, image, subdomain and port, the one store write
of `UpdateProject` is an `Update` of a record carrying the stored status, and the status
persisted afterwards is the status persisted before; a `running` project stays
`running`. -/
theorem C8_update_keeps_status {ρ : Type} (docker : ContainerRuntime ρ) (id : UUID)
    (name image subdomain : String) (port : Int) (w : World MemStore ρ) (project : Project)
    (hget : MemStore.GetByID w.db id = .ok project) :
    (UpdateProject (NewProjectService memRepo docker) id name image subdomain port w).2.trace
      = w.trace
        ++ [.RepoGetByID id,
            .RepoUpdate { project with Name := name, ImageName := image,
                                       Subdomain := subdomain, ContainerPort := port }]
    ∧ ∃ stored : Project,
        MemStore.GetByID
          (UpdateProject (NewProjectService memRepo docker) id name image subdomain port w).2.db
          id = .ok stored
        ∧ stored.Status = project.Status
        ∧ (project.Status = "running" → stored.Status = "running") := by
  have hkeep := MemStore.Update_keeps_status w.db id project
    { project with Name := name, ImageName := image, Subdomain := subdomain,
                   ContainerPort := port }
    hget (MemStore.GetByID_id w.db id project hget) rfl
  obtain ⟨stored, hstored, hstatus⟩ := hkeep
  have hget2 : (NewProjectService memRepo docker).repo.GetByID w.db id = .ok project := hget
  rw [UpdateProject_world (NewProjectService memRepo docker) id name image subdomain port w
    project hget2]
  exact ⟨rfl, stored, hstored, hstatus, fun h => by rw [hstatus, h]⟩

/-- C8 at `liveProject`, whose image goes from `live:1` to `live:2`. -/
theorem C8_update_keeps_status_witness :
    (UpdateProject (NewProjectService memRepo scriptedRuntime) 11 "Live" "live:2" "live" 80
        (liveWorld engineOk)).2.trace
      = (liveWorld engineOk).trace
        ++ [.RepoGetByID 11,
            .RepoUpdate { liveProject with Name := "Live", ImageName := "live:2",
                                           Subdomain := "live", ContainerPort := 80 }]
    ∧ ∃ stored : Project,
        MemStore.GetByID
          (UpdateProject (NewProjectService memRepo scriptedRuntime) 11 "Live" "live:2" "live" 80
            (liveWorld engineOk)).2.db
          11 = .ok stored
        ∧ stored.Status = liveProject.Status
        ∧ (liveProject.Status = "running" → stored.Status = "running") :=
  C8_update_keeps_status scriptedRuntime 11 "Live" "live:2" "live" 80 (liveWorld engineOk)
    liveProject rfl

/-- C9 as stated fails: the subdomains `a<TAB>b`, `-a` and a label of 64 characters are
no DNS labels and port 0 is not positive, yet for each of them `CreateProject` calls the
store's `Create`, and over the reference store it succeeds. -/
theorem C9_validation_counterexample :
    isDNSLabel "a\tb" = false
    ∧ (CreateProject refService 1 "App" "nginx" "a\tb" 80 (blogWorld engineOk)).2.trace
      = [.RepoCreate (newProject 1 "App" "nginx" "a\tb" 80)]
    ∧ (CreateProject refService 1 "App" "nginx" "a\tb" 80 (blogWorld engineOk)).1
      = .ok { newProject 1 "App" "nginx" "a\tb" 80 with ID := 8 }
    ∧ isDNSLabel "-a" = false
    ∧ (CreateProject refService 1 "App" "nginx" "-a" 80 (blogWorld engineOk)).2.trace
      = [.RepoCreate (newProject 1 "App" "nginx" "-a" 80)]
    ∧ (CreateProject refService 1 "App" "nginx" "-a" 80 (blogWorld engineOk)).1
      = .ok { newProject 1 "App" "nginx" "-a" 80 with ID := 8 }
    ∧ longLabel.length = 64 ∧ isDNSLabel longLabel = false
    ∧ (CreateProject refService 1 "App" "nginx" longLabel 80 (blogWorld engineOk)).2.trace
      = [.RepoCreate (newProject 1 "App" "nginx" longLabel 80)]
    ∧ isDNSLabel "app" = true
    ∧ (CreateProject refService 1 "App" "nginx" "app" 0 (blogWorld engineOk)).2.trace
      = [.RepoCreate (newProject 1 "App" "nginx" "app" 0)]
    ∧ (CreateProject refService 1 "App" "nginx" "app" 0 (blogWorld engineOk)).1
      = .ok { newProject 1 "App" "nginx" "app" 0 with ID := 8 } := by
  decide

/-- C9, as the code has it: `CreateProject` returns the validation error
`subdomain cannot contain spaces`, calls nothing and leaves the world as it was, whenever
the subdomain contains a space character; every subdomain without one is handed to the
store's `Create`, whatever its other characters, its length and the port. -/
theorem C9_space_rejected {σ ρ : Type} (s : ProjectService σ ρ) (userID : UUID)
    (name image subdomain : String) (port : Int) (w : World σ ρ) :
    (' ' ∈ subdomain.data →
      CreateProject s userID name image subdomain port w
        = (.error "subdomain cannot contain spaces", w))
    ∧ (' ' ∉ subdomain.data →
      (CreateProject s userID name image subdomain port w).2.trace
        = w.trace ++ [.RepoCreate (newProject userID name image subdomain port)]) := by
  constructor
  · exact CreateProject_space s userID name image subdomain port w
  · intro hspace
    rw [CreateProject_world s userID name image subdomain port w hspace]

/-- C9 at the subdomain `a b`. -/
theorem C9_space_rejected_witness :
    ' ' ∈ "a b".data
    ∧ CreateProject refService 1 "App" "nginx" "a b" 80 (blogWorld engineOk)
      = (.error "subdomain cannot contain spaces", blogWorld engineOk) :=
  ⟨by decide,
    (C9_space_rejected refService 1 "App" "nginx" "a b" 80 (blogWorld engineOk)).1
      (by decide)⟩

/-- C11 on a store whose `Update` fails: create answers `c1` and start succeeds, the
final `Update` of the project status returns the error `connection lost`, and
`DeployProject` still returns the running deployment and no error, while the stored
status stays `created`; `UpdateProject` on the same store does return that error. -/
theorem C11_deploy_drops_update_error :
    (updateFailsService.repo.Update (blogWorld engineOk).db
        { blogProject with Status := "running" }).1 = some "connection lost"
    ∧ (DeployProject updateFailsService sampleUUID 7 (blogWorld engineOk)).2.trace
      = [.RepoGetByID 7, .CreateContainer (deployConfig blogProject sampleUUID),
         .StartContainer "c1", .RepoUpdate { blogProject with Status := "running" }]
    ∧ (DeployProject updateFailsService sampleUUID 7 (blogWorld engineOk)).1
      = .ok { ID := 0, ProjectID := 7, ContainerID := "c1", Status := "running",
              DeployedAt := 0 }
    ∧ MemStore.GetByID
        (DeployProject updateFailsService sampleUUID 7 (blogWorld engineOk)).2.db 7
      = .ok blogProject
    ∧ blogProject.Status = "created"
    ∧ (UpdateProject updateFailsService 7 "Blog" "nginx:alpine" "blog" 3000
        (blogWorld engineOk)).1 = .error "connection lost" := by
  decide

/-- C12 at `mixedProject`, whose deployments the store returns with the most recent one
(container `c-new`, deployed at 9) first and an older one (container `c-old`, deployed at
2) last: `StartProject` and `StopProject` each succeed, and the one call the engine
receives from each is on `c-old`, not on `c-new`. -/
theorem C12_acts_on_last_listed :
    MemStore.GetByID (recordingWorld [mixedProject] engineOk).db 13 = .ok mixedProject
    ∧ mixedProject.Deployments.map (fun d => (d.ContainerID, d.DeployedAt))
      = [("c-new", 9), ("c-old", 2)]
    ∧ (∀ d ∈ mixedProject.Deployments, d.DeployedAt ≤ 9)
    ∧ (StartProject recordingService 13 (recordingWorld [mixedProject] engineOk)).1 = none
    ∧ (StartProject recordingService 13
        (recordingWorld [mixedProject] engineOk)).2.engine.received
      = [.StartContainer "c-old"]
    ∧ (StopProject recordingService 13 (recordingWorld [mixedProject] engineOk)).1 = none
    ∧ (StopProject recordingService 13
        (recordingWorld [mixedProject] engineOk)).2.engine.received
      = [.StopContainer "c-old"] := by
  decide

/-- C13 as stated fails on the schedule in which one deploy completes before the other
starts: over an engine that refuses a name already in use, two deploys of `blogProject`
both have their `CreateContainer` call accepted (the two names differ in their suffix),
the second returns neither the first result nor an error but a deployment of its own,
and the engine ends with two containers of the project. -/
theorem C13_two_deploys_counterexample :
    (DeployProject namingService sampleUUID 7 namingWorld).1
      = .ok { ID := 0, ProjectID := 7, ContainerID := "c1", Status := "running",
              DeployedAt := 0 }
    ∧ (DeployProject namingService otherUUID 7
        (DeployProject namingService sampleUUID 7 namingWorld).2).1
      = .ok { ID := 0, ProjectID := 7, ContainerID := "c2", Status := "running",
              DeployedAt := 0 }
    ∧ (createdConfigs (DeployProject namingService otherUUID 7
        (DeployProject namingService sampleUUID 7 namingWorld).2).2.trace).map
        (fun config => config.Name) = ["blog-6ba7b810", "blog-0f8fad5b"]
    ∧ (DeployProject namingService otherUUID 7
        (DeployProject namingService sampleUUID 7 namingWorld).2).2.engine
      = ["blog-6ba7b810", "blog-0f8fad5b"] := by
  decide

/-- C13, as the code has it, for two deploys of one project run one after the other:
each of them hands its own configuration to `CreateContainer`, whatever the first one
did, under the name made of the stored subdomain, a hyphen and the first 8 characters of
its own uuid string, and the engine is left as those runtime calls, in that order, leave
it; with the same stored subdomain the two names are equal exactly when the two uuid
strings agree on their first 8 characters; and when the runtime accepts the create and
the start of the second, the second returns a running deployment of its own container,
not the result of the first and not a conflict. -/
theorem C13_each_deploy_creates {σ ρ : Type} (s : ProjectService σ ρ)
    (firstUUID secondUUID : String) (id : UUID) (w : World σ ρ) (first second : Project)
    (hget1 : s.repo.GetByID w.db id = .ok first)
    (hget2 : s.repo.GetByID (DeployProject s firstUUID id w).2.db id = .ok second) :
    createdConfigs (DeployProject s secondUUID id (DeployProject s firstUUID id w).2).2.trace
      = createdConfigs w.trace
        ++ [deployConfig first firstUUID, deployConfig second secondUUID]
    ∧ (deployConfig first firstUUID).Name = first.Subdomain ++ "-" ++ firstUUID.take 8
    ∧ (deployConfig second secondUUID).Name = second.Subdomain ++ "-" ++ secondUUID.take 8
    ∧ (second.Subdomain = first.Subdomain →
        ((deployConfig first firstUUID).Name = (deployConfig second secondUUID).Name
          ↔ firstUUID.take 8 = secondUUID.take 8))
    ∧ (DeployProject s secondUUID id (DeployProject s firstUUID id w).2).2.engine
      = engineAfterDeploy s.dockerRuntime
          (engineAfterDeploy s.dockerRuntime w.engine (deployConfig first firstUUID))
          (deployConfig second secondUUID)
    ∧ ∀ c : String,
        (s.dockerRuntime.CreateContainer (DeployProject s firstUUID id w).2.engine
          (deployConfig second secondUUID)).1 = .ok c →
        (s.dockerRuntime.StartContainer
          (s.dockerRuntime.CreateContainer (DeployProject s firstUUID id w).2.engine
            (deployConfig second secondUUID)).2 c).1 = none →
        (DeployProject s secondUUID id (DeployProject s firstUUID id w).2).1
          = .ok { ID := 0, ProjectID := second.ID, ContainerID := c, Status := "running",
                  DeployedAt := 0 } := by
  refine ⟨?_, rfl, rfl, ?_, ?_, ?_⟩
  · rw [DeployProject_createdConfigs s secondUUID id _ second hget2,
      DeployProject_createdConfigs s firstUUID id w first hget1]
    simp
  · intro hsub
    rw [deployConfig_name, deployConfig_name, hsub]
    exact name_eq_iff first.Subdomain (firstUUID.take 8) (secondUUID.take 8)
  · rw [DeployProject_engine s secondUUID id _ second hget2,
      DeployProject_engine s firstUUID id w first hget1]
  · intro c hcreate hstart
    rw [DeployProject_success s secondUUID id _ second c hget2 hcreate hstart]

/-- C13 at two deploys of `blogProject` over the naming engine, with two uuid strings
that differ in their first 8 characters: the engine ends with the two containers
`blog-6ba7b810` and `blog-0f8fad5b`. -/
theorem C13_each_deploy_creates_witness :
    (createdConfigs (DeployProject namingService otherUUID 7
        (DeployProject namingService sampleUUID 7 namingWorld).2).2.trace
      = createdConfigs namingWorld.trace
        ++ [deployConfig blogProject sampleUUID,
            deployConfig { blogProject with Status := "running" } otherUUID]
    ∧ (deployConfig blogProject sampleUUID).Name
      = blogProject.Subdomain ++ "-" ++ sampleUUID.take 8
    ∧ (deployConfig { blogProject with Status := "running" } otherUUID).Name
      = ({ blogProject with Status := "running" } : Project).Subdomain ++ "-"
        ++ otherUUID.take 8
    ∧ (({ blogProject with Status := "running" } : Project).Subdomain = blogProject.Subdomain →
        ((deployConfig blogProject sampleUUID).Name
            = (deployConfig { blogProject with Status := "running" } otherUUID).Name
          ↔ sampleUUID.take 8 = otherUUID.take 8))
    ∧ (DeployProject namingService otherUUID 7
        (DeployProject namingService sampleUUID 7 namingWorld).2).2.engine
      = engineAfterDeploy namingService.dockerRuntime
          (engineAfterDeploy namingService.dockerRuntime namingWorld.engine
            (deployConfig blogProject sampleUUID))
          (deployConfig { blogProject with Status := "running" } otherUUID)
    ∧ ∀ c : String,
        (namingService.dockerRuntime.CreateContainer
          (DeployProject namingService sampleUUID 7 namingWorld).2.engine
          (deployConfig { blogProject with Status := "running" } otherUUID)).1 = .ok c →
        (namingService.dockerRuntime.StartContainer
          (namingService.dockerRuntime.CreateContainer
            (DeployProject namingService sampleUUID 7 namingWorld).2.engine
            (deployConfig { blogProject with Status := "running" } otherUUID)).2 c).1 = none →
        (DeployProject namingService otherUUID 7
          (DeployProject namingService sampleUUID 7 namingWorld).2).1
          = .ok { ID := 0, ProjectID := 7, ContainerID := c, Status := "running",
                  DeployedAt := 0 })
    ∧ sampleUUID.take 8 ≠ otherUUID.take 8
    ∧ (DeployProject namingService otherUUID 7
        (DeployProject namingService sampleUUID 7 namingWorld).2).2.engine
      = ["blog-6ba7b810", "blog-0f8fad5b"] :=
  ⟨C13_each_deploy_creates namingService sampleUUID otherUUID 7 namingWorld blogProject
      { blogProject with Status := "running" } rfl (by decide),
    by decide, by decide⟩

/-- C14: for every stored project, with `uuid.NewString()` answering a string of 36
characters, `DeployProject` hands one configuration to `CreateContainer`, and the engine
is left as the runtime's `CreateContainer` on that configuration (followed, when it
answers a container id, by `StartContainer` of that id) leaves it; that configuration has
`Env` equal to the list of `Key=Value` strings of the project's EnvVars, in their order
and of their number, `Image` equal to the project's image, `Port` equal to its container
port, and `Name` equal to its subdomain followed by a hyphen and a suffix of 8 characters
(the first 8 of that string). -/
theorem C14_deploy_config {σ ρ : Type} (s : ProjectService σ ρ) (newUUID : String)
    (id : UUID) (w : World σ ρ) (project : Project)
    (hget : s.repo.GetByID w.db id = .ok project)
    (hlen : newUUID.length = 36) :
    ∃ (config : ContainerConfig) (suffix : String),
      createdConfigs (DeployProject s newUUID id w).2.trace = createdConfigs w.trace ++ [config]
      ∧ (DeployProject s newUUID id w).2.engine
        = engineAfterDeploy s.dockerRuntime w.engine config
      ∧ config.Env = project.EnvVars.map (fun env => env.Key ++ "=" ++ env.Value)
      ∧ config.Env.length = project.EnvVars.length
      ∧ config.Image = project.ImageName
      ∧ config.Port = project.ContainerPort
      ∧ config.Name = project.Subdomain ++ "-" ++ suffix
      ∧ suffix.length = 8
      ∧ suffix.data = newUUID.data.take 8 := by
  refine ⟨deployConfig project newUUID, newUUID.take 8,
    DeployProject_createdConfigs s newUUID id w project hget,
    DeployProject_engine s newUUID id w project hget, ?_, ?_, rfl, rfl, rfl,
    take_eight_length newUUID hlen, String.data_take newUUID 8⟩
  · exact envList_eq_map project
  · show (envList project).length = project.EnvVars.length
    rw [envList_eq_map, List.length_map]

/-- C14 at `blogProject`, which has one EnvVar, on a recording engine: the engine has
received the create of the configuration named `blog-6ba7b810` with the environment
`MODE=prod`, then the start of `c1`. -/
theorem C14_deploy_config_witness :
    (∃ (config : ContainerConfig) (suffix : String),
      createdConfigs (DeployProject recordingService sampleUUID 7
          (recordingWorld [blogProject] engineOk)).2.trace
        = createdConfigs (recordingWorld [blogProject] engineOk).trace ++ [config]
      ∧ (DeployProject recordingService sampleUUID 7
          (recordingWorld [blogProject] engineOk)).2.engine
        = engineAfterDeploy recordingService.dockerRuntime
            (recordingWorld [blogProject] engineOk).engine config
      ∧ config.Env = blogProject.EnvVars.map (fun env => env.Key ++ "=" ++ env.Value)
      ∧ config.Env.length = blogProject.EnvVars.length
      ∧ config.Image = blogProject.ImageName
      ∧ config.Port = blogProject.ContainerPort
      ∧ config.Name = blogProject.Subdomain ++ "-" ++ suffix
      ∧ suffix.length = 8
      ∧ suffix.data = sampleUUID.data.take 8)
    ∧ (DeployProject recordingService sampleUUID 7
        (recordingWorld [blogProject] engineOk)).2.engine.received
      = [.CreateContainer
           { Name := "blog-6ba7b810", Image := "nginx:alpine", Env := ["MODE=prod"],
             Labels :=
               [ ("traefik.enable", "true"),
                 ("traefik.http.routers.blog.rule", "Host(`blog.localhost`)"),
                 ("traefik.http.services.blog.loadbalancer.server.port", "3000") ],
             Port := 3000 },
         .StartContainer "c1"] :=
  ⟨C14_deploy_config recordingService sampleUUID 7 (recordingWorld [blogProject] engineOk)
      blogProject rfl (by decide),
    by decide⟩

/-- C15: for each of `DeployProject`, `StartProject`, `StopProject`, `DeleteProject` and
`UpdateProject`, if the store's `GetByID` fails for the given project id, the operation
returns an error carrying the lookup's message, and the lookup is its only call: no call
reaches the container runtime, no `Update`, `Delete` or other write reaches the store, and
the store and the engine are the ones they were. -/
theorem C15_failed_lookup_stops {σ ρ : Type} (s : ProjectService σ ρ) (newUUID : String)
    (id : UUID) (name image subdomain : String) (port : Int) (w : World σ ρ) (err : Error)
    (hget : s.repo.GetByID w.db id = .error err) :
    DeployProject s newUUID id w
      = (.error ("project not found: " ++ err), w.log (.RepoGetByID id))
    ∧ StartProject s id w = (some err, w.log (.RepoGetByID id))
    ∧ StopProject s id w = (some err, w.log (.RepoGetByID id))
    ∧ DeleteProject s id w = (some err, w.log (.RepoGetByID id))
    ∧ UpdateProject s id name image subdomain port w = (.error err, w.log (.RepoGetByID id))
    ∧ ((w.log (.RepoGetByID id)).trace.drop w.trace.length).filter
        (fun c => c.isRuntime || c.isStoreWrite) = []
    ∧ (w.log (.RepoGetByID id)).db = w.db
    ∧ (w.log (.RepoGetByID id)).engine = w.engine :=
  ⟨DeployProject_lookup_error s newUUID id w err hget,
    StartProject_lookup_error s id w err hget,
    StopProject_lookup_error s id w err hget,
    DeleteProject_lookup_error s id w err hget,
    UpdateProject_lookup_error s id name image subdomain port w err hget,
    lookup_only_quiet w id⟩

/-- C15 at the key 99, which the store of `shopWorld` does not hold. -/
theorem C15_failed_lookup_stops_witness :
    DeployProject refService sampleUUID 99 (shopWorld engineOk)
      = (.error ("project not found: " ++ "record not found"),
         (shopWorld engineOk).log (.RepoGetByID 99))
    ∧ StartProject refService 99 (shopWorld engineOk)
      = (some "record not found", (shopWorld engineOk).log (.RepoGetByID 99))
    ∧ StopProject refService 99 (shopWorld engineOk)
      = (some "record not found", (shopWorld engineOk).log (.RepoGetByID 99))
    ∧ DeleteProject refService 99 (shopWorld engineOk)
      = (some "record not found", (shopWorld engineOk).log (.RepoGetByID 99))
    ∧ UpdateProject refService 99 "Shop" "shop:2" "shop" 8080 (shopWorld engineOk)
      = (.error "record not found", (shopWorld engineOk).log (.RepoGetByID 99))
    ∧ (((shopWorld engineOk).log (.RepoGetByID 99)).trace.drop
        (shopWorld engineOk).trace.length).filter
        (fun c => c.isRuntime || c.isStoreWrite) = []
    ∧ ((shopWorld engineOk).log (.RepoGetByID 99)).db = (shopWorld engineOk).db
    ∧ ((shopWorld engineOk).log (.RepoGetByID 99)).engine = (shopWorld engineOk).engine :=
  C15_failed_lookup_stops refService sampleUUID 99 "Shop" "shop:2" "shop" 8080
    (shopWorld engineOk) "record not found" rfl

end MultiTenantHost
